import Mathlib

/-!
BME280 driver (`Bme280Drv.cpp`, `Bme280Drv.h`): embedding and verification.

The driver is embedded as pure functions over an explicit device state.

* Machine integers are `Int`/`Nat` values; every operation the source performs
  on `int32_t`/`int64_t` is followed by `wrap32`/`wrap64` (two's-complement
  wrap-around), right shifts are arithmetic (`x >>> (k : Nat)` on `Int` is
  `Int.shiftRight`, which rounds down).
* The bus transport (`I2CDevice`) is external to the sources: it is modelled as
  a register file together with a trace of the operations issued.
* `float`/`double` values are modelled as exact elements of an ordered field
  `K` (no rounding, no NaN, no infinity); `pow` of the C library is a
  parameter. This reading follows the source up to rounding as long as every
  base handed to `pow` is positive; where the source's `pow` yields NaN (a
  base that is not positive) no element of `K` stands for the result.
* `usleep` has no effect on the modelled state and is left out.
-/

namespace Bme280

/-! ## Machine integers -/

/-- Value of an integer after conversion to `int32_t` (two's complement). -/
def wrap32 (x : Int) : Int := (x + 2147483648) % 4294967296 - 2147483648

/-- Value of an integer after conversion to `int64_t` (two's complement). -/
def wrap64 (x : Int) : Int :=
  (x + 9223372036854775808) % 18446744073709551616 - 9223372036854775808

/-- Value of a natural number after conversion to `uint8_t`. -/
def toU8 (x : Nat) : Nat := x % 256

/-- Value of a natural number after conversion to `uint16_t`. -/
def toU16 (x : Nat) : Nat := x % 65536

/-- Value of a natural number after conversion to `uint32_t`. -/
def toU32 (x : Nat) : Nat := x % 4294967296

/-- Value of a natural number after conversion to `int16_t`. -/
def toS16 (x : Nat) : Int :=
  if x % 65536 < 32768 then ((x % 65536 : Nat) : Int) else ((x % 65536 : Nat) : Int) - 65536

/-- Value of a natural number after conversion to `int8_t`. -/
def toS8 (x : Nat) : Int :=
  if x % 256 < 128 then ((x % 256 : Nat) : Int) else ((x % 256 : Nat) : Int) - 256

/-- Left shift of a signed value, before the result is stored. -/
def shl (x : Int) (k : Nat) : Int := x * 2 ^ k

/-! ## Register addresses (`Bme280Drv.h`) -/

def BME280_REGISTER_DIG_T1 : Nat := 0x88
def BME280_REGISTER_DIG_T2 : Nat := 0x8A
def BME280_REGISTER_DIG_T3 : Nat := 0x8C
def BME280_REGISTER_DIG_P1 : Nat := 0x8E
def BME280_REGISTER_DIG_P2 : Nat := 0x90
def BME280_REGISTER_DIG_P3 : Nat := 0x92
def BME280_REGISTER_DIG_P4 : Nat := 0x94
def BME280_REGISTER_DIG_P5 : Nat := 0x96
def BME280_REGISTER_DIG_P6 : Nat := 0x98
def BME280_REGISTER_DIG_P7 : Nat := 0x9A
def BME280_REGISTER_DIG_P8 : Nat := 0x9C
def BME280_REGISTER_DIG_P9 : Nat := 0x9E
def BME280_REGISTER_DIG_H1 : Nat := 0xA1
def BME280_REGISTER_DIG_H2 : Nat := 0xE1
def BME280_REGISTER_DIG_H3 : Nat := 0xE3
def BME280_REGISTER_DIG_H4 : Nat := 0xE4
def BME280_REGISTER_DIG_H5 : Nat := 0xE5
def BME280_REGISTER_DIG_H6 : Nat := 0xE7
def BME280_REGISTER_CHIPID : Nat := 0xD0
def BME280_REGISTER_VERSION : Nat := 0xD1
def BME280_REGISTER_SOFTRESET : Nat := 0xE0
def BME280_REGISTER_CONTROLHUMID : Nat := 0xF2
def BME280_REGISTER_STATUS : Nat := 0xF3
def BME280_REGISTER_CONTROL : Nat := 0xF4
def BME280_REGISTER_CONFIG : Nat := 0xF5
def BME280_REGISTER_PRESSUREDATA : Nat := 0xF7
def BME280_REGISTER_TEMPDATA : Nat := 0xFA
def BME280_REGISTER_HUMIDDATA : Nat := 0xFD

/-- Number of values the device reports (`Bme280Drv::NUM_VALUES`). -/
def NUM_VALUES : Nat := 3

/-- Value count of the device (`Device::numValues`). -/
def numValues : Nat := NUM_VALUES

/-- Names of the reported values (`Device::valueNames`). -/
def valueNames : List String := ["pressure", "temperature", "humidity"]

/-! ## Bus transport -/

/-- One operation issued on the bus. -/
inductive BusOp where
  | readRegister (addr : Nat)
  | readRegisters (count : Nat) (addr : Nat)
  | writeRegister (addr : Nat) (value : Nat)
  deriving DecidableEq, Repr

/-- Modelled from the spec: `I2CDevice.h` is not among the sources. The spec
requires `readByte(registerAddress) -> byte`, `readBytes(count, startAddress)`
and `writeByte(registerAddress, value)`. The sensor behind the transport is a
register file `regs` (a register holds the byte `regs a % 256`); the status
register alone changes from one read to the next, its successive values being
`status 0, status 1, ...`, with `polls` counting the status reads made so far;
`trace` records every operation issued, oldest first. The driver only ever
reads registers the bus cannot write, so writes are recorded and change no
register that is read. -/
structure I2CDevice where
  regs : Nat → Nat
  status : Nat → Nat
  polls : Nat
  trace : List BusOp

/-- Single-byte register read (`I2CDevice::readRegister`). -/
def I2CDevice.readRegister (d : I2CDevice) (addr : Nat) : Nat × I2CDevice :=
  if addr = BME280_REGISTER_STATUS then
    (toU8 (d.status d.polls),
      { d with polls := d.polls + 1, trace := d.trace ++ [BusOp.readRegister addr] })
  else
    (toU8 (d.regs addr), { d with trace := d.trace ++ [BusOp.readRegister addr] })

/-- Burst read of `count` bytes from `addr` upwards (`I2CDevice::readRegisters`). -/
def I2CDevice.readRegisters (d : I2CDevice) (count addr : Nat) : List Nat × I2CDevice :=
  ((List.range count).map (fun i => toU8 (d.regs (addr + i))),
    { d with trace := d.trace ++ [BusOp.readRegisters count addr] })

/-- Single-byte register write (`I2CDevice::writeRegister`). -/
def I2CDevice.writeRegister (d : I2CDevice) (addr value : Nat) : I2CDevice :=
  { d with trace := d.trace ++ [BusOp.writeRegister addr (toU8 value)] }

/-- The register writes among a list of bus operations. -/
def writesOf (ops : List BusOp) : List BusOp :=
  ops.filter (fun op => match op with
    | BusOp.writeRegister _ _ => true
    | _ => false)

/-! ## Driver state -/

/-- Calibration data (`bme280_calib_data`). The C field types are `uint16_t`
for `dig_T1`, `dig_P1`, `uint8_t` for `dig_H1`, `dig_H3`, `int8_t` for `dig_H6`
and `int16_t` for the others. -/
structure bme280_calib_data where
  dig_T1 : Int
  dig_T2 : Int
  dig_T3 : Int
  dig_P1 : Int
  dig_P2 : Int
  dig_P3 : Int
  dig_P4 : Int
  dig_P5 : Int
  dig_P6 : Int
  dig_P7 : Int
  dig_P8 : Int
  dig_P9 : Int
  dig_H1 : Int
  dig_H2 : Int
  dig_H3 : Int
  dig_H4 : Int
  dig_H5 : Int
  dig_H6 : Int

/-- The values of every field fit the C type of the field. -/
def bme280_calib_data.inRange (c : bme280_calib_data) : Prop :=
  (0 ≤ c.dig_T1 ∧ c.dig_T1 ≤ 65535) ∧
  (-32768 ≤ c.dig_T2 ∧ c.dig_T2 ≤ 32767) ∧
  (-32768 ≤ c.dig_T3 ∧ c.dig_T3 ≤ 32767) ∧
  (0 ≤ c.dig_P1 ∧ c.dig_P1 ≤ 65535) ∧
  (-32768 ≤ c.dig_P2 ∧ c.dig_P2 ≤ 32767) ∧
  (-32768 ≤ c.dig_P3 ∧ c.dig_P3 ≤ 32767) ∧
  (-32768 ≤ c.dig_P4 ∧ c.dig_P4 ≤ 32767) ∧
  (-32768 ≤ c.dig_P5 ∧ c.dig_P5 ≤ 32767) ∧
  (-32768 ≤ c.dig_P6 ∧ c.dig_P6 ≤ 32767) ∧
  (-32768 ≤ c.dig_P7 ∧ c.dig_P7 ≤ 32767) ∧
  (-32768 ≤ c.dig_P8 ∧ c.dig_P8 ≤ 32767) ∧
  (-32768 ≤ c.dig_P9 ∧ c.dig_P9 ≤ 32767) ∧
  (0 ≤ c.dig_H1 ∧ c.dig_H1 ≤ 255) ∧
  (-32768 ≤ c.dig_H2 ∧ c.dig_H2 ≤ 32767) ∧
  (0 ≤ c.dig_H3 ∧ c.dig_H3 ≤ 255) ∧
  (-32768 ≤ c.dig_H4 ∧ c.dig_H4 ≤ 32767) ∧
  (-32768 ≤ c.dig_H5 ∧ c.dig_H5 ≤ 32767) ∧
  (-128 ≤ c.dig_H6 ∧ c.dig_H6 ≤ 127)

/-- Oversampling codes (`sensor_sampling`). -/
inductive sensor_sampling where
  | SAMPLING_NONE | SAMPLING_X1 | SAMPLING_X2 | SAMPLING_X4 | SAMPLING_X8 | SAMPLING_X16
  deriving DecidableEq, Repr

/-- Numeric value of an oversampling code. -/
def sensor_sampling.code : sensor_sampling → Nat
  | .SAMPLING_NONE => 0b000
  | .SAMPLING_X1 => 0b001
  | .SAMPLING_X2 => 0b010
  | .SAMPLING_X4 => 0b011
  | .SAMPLING_X8 => 0b100
  | .SAMPLING_X16 => 0b101

/-- Operating modes (`sensor_mode`). -/
inductive sensor_mode where
  | MODE_SLEEP | MODE_FORCED | MODE_NORMAL
  deriving DecidableEq, Repr

/-- Numeric value of an operating mode. -/
def sensor_mode.code : sensor_mode → Nat
  | .MODE_SLEEP => 0b00
  | .MODE_FORCED => 0b01
  | .MODE_NORMAL => 0b11

/-- IIR filter codes (`sensor_filter`). -/
inductive sensor_filter where
  | FILTER_OFF | FILTER_X2 | FILTER_X4 | FILTER_X8 | FILTER_X16
  deriving DecidableEq, Repr

/-- Numeric value of a filter code. -/
def sensor_filter.code : sensor_filter → Nat
  | .FILTER_OFF => 0b000
  | .FILTER_X2 => 0b001
  | .FILTER_X4 => 0b010
  | .FILTER_X8 => 0b011
  | .FILTER_X16 => 0b100

/-- Standby durations (`standby_duration`). -/
inductive standby_duration where
  | STANDBY_MS_0_5 | STANDBY_MS_62_5 | STANDBY_MS_125 | STANDBY_MS_250
  | STANDBY_MS_500 | STANDBY_MS_1000 | STANDBY_MS_10 | STANDBY_MS_20
  deriving DecidableEq, Repr

/-- Numeric value of a standby duration. -/
def standby_duration.code : standby_duration → Nat
  | .STANDBY_MS_0_5 => 0b000
  | .STANDBY_MS_62_5 => 0b001
  | .STANDBY_MS_125 => 0b010
  | .STANDBY_MS_250 => 0b011
  | .STANDBY_MS_500 => 0b100
  | .STANDBY_MS_1000 => 0b101
  | .STANDBY_MS_10 => 0b110
  | .STANDBY_MS_20 => 0b111

/-- The config register (`struct config`): two 3-bit fields. -/
structure config where
  t_sb : Nat
  filter : Nat

/-- Byte written to the config register (`config::get`). -/
def config.get (c : config) : Nat := (c.t_sb <<< 5) ||| (c.filter <<< 3)

/-- The ctrl_meas register (`struct ctrl_meas`): two 3-bit fields and a 2-bit field. -/
structure ctrl_meas where
  osrs_t : Nat
  osrs_p : Nat
  mode : Nat

/-- Byte written to the ctrl_meas register (`ctrl_meas::get`). -/
def ctrl_meas.get (c : ctrl_meas) : Nat := (c.osrs_t <<< 5) ||| (c.osrs_p <<< 3) ||| c.mode

/-- The ctrl_hum register (`struct ctrl_hum`). -/
structure ctrl_hum where
  none : Nat
  osrs_h : Nat

/-- Byte written to the ctrl_hum register (`ctrl_hum::get`). -/
def ctrl_hum.get (c : ctrl_hum) : Nat := c.osrs_h

/-- State of a driver instance (`class Bme280Drv`): the bus it owns, the
`active` flag inherited from `Device`, and its private members. -/
structure Bme280Drv where
  bus : I2CDevice
  active : Bool
  t_fine : Int
  stationAltitude : Int
  bme280_calib : bme280_calib_data
  configReg : config
  measReg : ctrl_meas
  humReg : ctrl_hum

/-! ## Register access helpers -/

/-- Combine two bytes into a 16-bit value, most significant byte first
(`Bme280Drv::combineRegisters`). -/
def combineRegisters (msb lsb : Nat) : Nat := toU16 ((toU8 msb <<< 8) ||| toU8 lsb)

/-- Big-endian 16-bit read (`Bme280Drv::read16`). The two byte reads are
argument expressions of one call; they are taken left to right. -/
def read16 (d : I2CDevice) (registerAddress : Nat) : Nat × I2CDevice :=
  let r1 := d.readRegister registerAddress
  let r2 := r1.2.readRegister (registerAddress + 1)
  (combineRegisters r1.1 r2.1, r2.2)

/-- Little-endian unsigned 16-bit read (`Bme280Drv::read16_LE`). -/
def read16_LE (d : I2CDevice) (registerAddress : Nat) : Nat × I2CDevice :=
  let r := read16 d registerAddress
  (toU16 ((r.1 >>> (8 : Nat)) ||| (r.1 <<< 8)), r.2)

/-- Big-endian signed 16-bit read (`Bme280Drv::readS16`). -/
def readS16 (d : I2CDevice) (registerAddress : Nat) : Int × I2CDevice :=
  let r1 := d.readRegister registerAddress
  let r2 := r1.2.readRegister (registerAddress + 1)
  (toS16 (combineRegisters r1.1 r2.1), r2.2)

/-- Little-endian signed 16-bit read (`Bme280Drv::readS16_LE`). -/
def readS16_LE (d : I2CDevice) (registerAddress : Nat) : Int × I2CDevice :=
  let r := read16_LE d registerAddress
  (toS16 r.1, r.2)

/-- Three-byte burst read combined into a 24-bit value (`Bme280Drv::read24`). -/
def read24 (d : I2CDevice) (registerAddress : Nat) : Nat × I2CDevice :=
  let r := d.readRegisters 3 registerAddress
  let value := r.1.getD 0 0
  let value := toU32 (value <<< 8)
  let value := value ||| r.1.getD 1 0
  let value := toU32 (value <<< 8)
  let value := value ||| r.1.getD 2 0
  (value, r.2)

/-! ## Temperature baseline -/

/-- Recompute `t_fine` from the raw temperature bytes (`Bme280Drv::calcTFine`). -/
def calcTFine (s : Bme280Drv) : Bme280Drv :=
  let r := read24 s.bus BME280_REGISTER_TEMPDATA
  let adc_T : Int := wrap32 (r.1 : Int)
  let adc_T := adc_T >>> (4 : Nat)
  let var1 := wrap32 (wrap32 ((adc_T >>> (3 : Nat)) - wrap32 (shl s.bme280_calib.dig_T1 1)) *
      s.bme280_calib.dig_T2) >>> (11 : Nat)
  let var2 := wrap32 ((wrap32 (wrap32 ((adc_T >>> (4 : Nat)) - s.bme280_calib.dig_T1) *
      wrap32 ((adc_T >>> (4 : Nat)) - s.bme280_calib.dig_T1)) >>> (12 : Nat)) *
      s.bme280_calib.dig_T3) >>> (14 : Nat)
  { s with bus := r.2, t_fine := wrap32 (var1 + var2) }

/-! ## Altitude and sea-level formulas -/

section Float
variable {K : Type} [LinearOrderedField K]

/-- Hypsometric formula (`Bme280Drv::pressureToAltitude`). -/
def pressureToAltitude (pow : K → K → K) (seaLevel atmospheric temp : K) : K :=
  ((pow (seaLevel / atmospheric) (190223 / 1000000) - 1) * (temp + 27315 / 100)) / (65 / 10000)

/-- Inverse hypsometric formula (`Bme280Drv::seaLevelForAltitude`). -/
def seaLevelForAltitude (pow : K → K → K) (altitude atmospheric temp : K) : K :=
  pow (((altitude * (65 / 10000)) / (temp + 27315 / 100)) + 1) (1 / (190223 / 1000000)) *
    atmospheric

/-- Station pressure projected to sea level (`Bme280Drv::seaLevelPressure`),
read over exact numbers. The source evaluates the expression in `double` and
returns a `float`; the two agree up to rounding where `pressure_mb - 0.3` and
the base of the outer power are positive. For `pressure_mb - 0.3 ≤ 0` the
source's result is NaN, which this reading does not represent. -/
def seaLevelPressure (pow : K → K → K) (stationAltitude : Int) (pressure_mb : K) : K :=
  (pressure_mb - 3 / 10) *
    pow (1 + ((842288 / 100000) / 100000) *
          ((stationAltitude : K) / pow (pressure_mb - 3 / 10) (190284 / 1000000)))
      (1 / (190284 / 1000000))

end Float

/-! ## Value conversions -/

/-- What a value request returns: a string literal of the source, returned as
it is, or the string `DataManip::dataToString(value, places)`.

Modelled from the spec: `DataManip.h` is not among the sources; the spec
requires `format(value: float, decimalPlaces: int) -> string` of it, and the
formatted string is represented by its two arguments. -/
inductive Reading (K : Type) where
  | literal (text : String)
  | formatted (value : K) (places : Nat)

/-- First intermediate term of the pressure compensation, the later divisor
(`var1` of `readValue0` at the zero test). -/
def pressureVar1 (t_fine : Int) (c : bme280_calib_data) : Int :=
  let var1 := wrap64 (t_fine - 128000)
  let var1 := wrap64 ((wrap64 (wrap64 (var1 * var1) * c.dig_P3) >>> (8 : Nat)) +
      wrap64 (shl (wrap64 (var1 * c.dig_P2)) 12))
  wrap64 (wrap64 (wrap64 (shl 1 47) + var1) * c.dig_P1) >>> (33 : Nat)

/-- Second intermediate term of the pressure compensation (`var2` of
`readValue0` at the zero test). -/
def pressureVar2 (t_fine : Int) (c : bme280_calib_data) : Int :=
  let var1 := wrap64 (t_fine - 128000)
  let var2 := wrap64 (wrap64 (var1 * var1) * c.dig_P6)
  let var2 := wrap64 (var2 + wrap64 (shl (wrap64 (var1 * c.dig_P5)) 17))
  wrap64 (var2 + wrap64 (shl (c.dig_P4) 35))

/-- The Q24.8 pressure `p` of `readValue0`, computed after the zero test from
the shifted raw code `adc_P` and the two intermediate terms. The division
truncates towards zero. -/
def pressureQ24_8 (adc_P var1 var2 : Int) (c : bme280_calib_data) : Int :=
  let p := wrap64 (1048576 - adc_P)
  let p := wrap64 (Int.tdiv (wrap64 (wrap64 (wrap64 (shl p 31) - var2) * 3125)) var1)
  let var1 := wrap64 (wrap64 (c.dig_P9 * (p >>> (13 : Nat))) * (p >>> (13 : Nat))) >>> (25 : Nat)
  let var2 := wrap64 (c.dig_P8 * p) >>> (19 : Nat)
  wrap64 ((wrap64 (wrap64 (p + var1) + var2) >>> (8 : Nat)) + wrap64 (shl (c.dig_P7) 4))

section Values
variable {K : Type} [LinearOrderedField K]

/-- Pressure (`Bme280Drv::readValue0`). The integer pipeline and the three
guards before it are those of the source. The range test at the end compares
exact numbers: the source compares the `float` that `seaLevelPressure`
returns, so a NaN (both comparisons false, the value is formatted) and a
rounding onto one of the two bounds are not represented here. -/
def readValue0 (pow : K → K → K) (s : Bme280Drv) : Reading K × Bme280Drv :=
  if !s.active then (Reading.literal "none", s)
  else
    let s := calcTFine s
    let r := read24 s.bus BME280_REGISTER_PRESSUREDATA
    let s := { s with bus := r.2 }
    let adc_P : Int := wrap32 (r.1 : Int)
    if adc_P = 0x800000 then (Reading.literal "none", s)
    else
      let adc_P := adc_P >>> (4 : Nat)
      let var1 := pressureVar1 s.t_fine s.bme280_calib
      let var2 := pressureVar2 s.t_fine s.bme280_calib
      if var1 = 0 then (Reading.literal "0", s)
      else
        let p := pressureQ24_8 adc_P var1 var2 s.bme280_calib
        let p_adj : K := ((Int.tdiv p 256 : Int) : K)
        let p_adj := seaLevelPressure pow s.stationAltitude (p_adj / 100)
        if p_adj < 850 ∨ p_adj > 1090 then (Reading.literal "none", s)
        else (Reading.formatted p_adj 2, s)

/-- Temperature (`Bme280Drv::readValue1`). -/
def readValue1 (s : Bme280Drv) : Reading K × Bme280Drv :=
  if !s.active then (Reading.literal "none", s)
  else
    let s := calcTFine s
    let temp : K := ((wrap32 (wrap32 (s.t_fine * 5) + 128) >>> (8 : Nat) : Int) : K)
    let temp := temp / 100
    (Reading.formatted temp 1, s)

/-- The humidity intermediate `v_x1_u32r` of `readValue2` before the clamp. -/
def humidityRaw (t_fine adc_H : Int) (c : bme280_calib_data) : Int :=
  let v_x1_u32r := wrap32 (t_fine - 76800)
  let v_x1_u32r := wrap32 (
    (wrap32 (wrap32 (wrap32 (wrap32 (shl adc_H 14) - wrap32 (shl c.dig_H4 20)) -
        wrap32 (c.dig_H5 * v_x1_u32r)) + 16384) >>> (15 : Nat)) *
    (wrap32 (wrap32 (wrap32 ((wrap32 ((wrap32 (v_x1_u32r * c.dig_H6) >>> (10 : Nat)) *
        wrap32 ((wrap32 (v_x1_u32r * c.dig_H3) >>> (11 : Nat)) + 32768)) >>> (10 : Nat)) + 2097152) *
        c.dig_H2) + 8192) >>> (14 : Nat)))
  wrap32 (v_x1_u32r - (wrap32 ((wrap32 ((v_x1_u32r >>> (15 : Nat)) * (v_x1_u32r >>> (15 : Nat))) >>> (7 : Nat)) *
      c.dig_H1) >>> (4 : Nat)))

/-- The two clamping assignments of `readValue2`. -/
def humidityClamp (v_x1_u32r : Int) : Int :=
  let v_x1_u32r := if v_x1_u32r < 0 then 0 else v_x1_u32r
  if v_x1_u32r > 419430400 then 419430400 else v_x1_u32r

/-- Humidity (`Bme280Drv::readValue2`). -/
def readValue2 (s : Bme280Drv) : Reading K × Bme280Drv :=
  if !s.active then (Reading.literal "none", s)
  else
    let s := calcTFine s
    let r := read16 s.bus BME280_REGISTER_HUMIDDATA
    let s := { s with bus := r.2 }
    let adc_H : Int := wrap32 (r.1 : Int)
    if adc_H = 0x8000 then (Reading.literal "none", s)
    else
      let v_x1_u32r := humidityClamp (humidityRaw s.t_fine adc_H s.bme280_calib)
      let h : K := ((v_x1_u32r >>> (12 : Nat) : Int) : K) / 1024
      (Reading.formatted h 1, s)

/-- The table of read functions (`Bme280Drv::readFunction`). -/
def readFunction (pow : K → K → K) : List (Bme280Drv → Reading K × Bme280Drv) :=
  [readValue0 pow, readValue1, readValue2]

/-- Value request (`Bme280Drv::getValueAtIndex`). The source tests only
`index < numValues` before subscripting `readFunction`; a negative subscript
lies outside the array and the call has no defined result, which is `none`
here. -/
def getValueAtIndex (pow : K → K → K) (s : Bme280Drv) (index : Int) :
    Option (Reading K × Bme280Drv) :=
  if !s.active then some (Reading.literal "none", s)
  else if index < (numValues : Int) then
    if 0 ≤ index then ((readFunction pow)[index.toNat]?).map (fun f => f s)
    else none
  else some (Reading.literal "none", s)

end Values

/-! ## Configuration and initialisation -/

/-- Program the sampling configuration (`Bme280Drv::setSampling`). The
bit-fields keep the low 3 (or 2) bits of what is assigned to them. -/
def setSampling (s : Bme280Drv) (mode : sensor_mode) (tempSampling pressSampling
    humSampling : sensor_sampling) (filter : sensor_filter) (duration : standby_duration) :
    Bme280Drv :=
  let measReg : ctrl_meas :=
    { osrs_t := tempSampling.code % 8, osrs_p := pressSampling.code % 8, mode := mode.code % 4 }
  let humReg : ctrl_hum := { s.humReg with osrs_h := humSampling.code % 8 }
  let configReg : config := { filter := filter.code % 8, t_sb := duration.code % 8 }
  let bus := s.bus.writeRegister BME280_REGISTER_CONTROLHUMID humReg.get
  let bus := bus.writeRegister BME280_REGISTER_CONFIG configReg.get
  let bus := bus.writeRegister BME280_REGISTER_CONTROL measReg.get
  { s with measReg := measReg, humReg := humReg, configReg := configReg, bus := bus }

/-- The call `setSampling()` with the default arguments of `Bme280Drv.h`. -/
def setSamplingDefault (s : Bme280Drv) : Bme280Drv :=
  setSampling s sensor_mode.MODE_NORMAL sensor_sampling.SAMPLING_X16
    sensor_sampling.SAMPLING_X16 sensor_sampling.SAMPLING_X16 sensor_filter.FILTER_OFF
    standby_duration.STANDBY_MS_0_5

/-- Read the trimming parameters (`Bme280Drv::readCoefficients`). Two reads
inside one expression are taken left to right. -/
def readCoefficients (s : Bme280Drv) : Bme280Drv :=
  let t1 := read16_LE s.bus BME280_REGISTER_DIG_T1
  let t2 := readS16_LE t1.2 BME280_REGISTER_DIG_T2
  let t3 := readS16_LE t2.2 BME280_REGISTER_DIG_T3
  let p1 := read16_LE t3.2 BME280_REGISTER_DIG_P1
  let p2 := readS16_LE p1.2 BME280_REGISTER_DIG_P2
  let p3 := readS16_LE p2.2 BME280_REGISTER_DIG_P3
  let p4 := readS16_LE p3.2 BME280_REGISTER_DIG_P4
  let p5 := readS16_LE p4.2 BME280_REGISTER_DIG_P5
  let p6 := readS16_LE p5.2 BME280_REGISTER_DIG_P6
  let p7 := readS16_LE p6.2 BME280_REGISTER_DIG_P7
  let p8 := readS16_LE p7.2 BME280_REGISTER_DIG_P8
  let p9 := readS16_LE p8.2 BME280_REGISTER_DIG_P9
  let h1 := p9.2.readRegister BME280_REGISTER_DIG_H1
  let h2 := readS16_LE h1.2 BME280_REGISTER_DIG_H2
  let h3 := h2.2.readRegister BME280_REGISTER_DIG_H3
  let h4a := h3.2.readRegister BME280_REGISTER_DIG_H4
  let h4b := h4a.2.readRegister (BME280_REGISTER_DIG_H4 + 1)
  let h5a := h4b.2.readRegister (BME280_REGISTER_DIG_H5 + 1)
  let h5b := h5a.2.readRegister BME280_REGISTER_DIG_H5
  let h6 := h5b.2.readRegister BME280_REGISTER_DIG_H6
  { s with
    bus := h6.2
    bme280_calib :=
      { dig_T1 := (t1.1 : Int), dig_T2 := t2.1, dig_T3 := t3.1
        dig_P1 := (p1.1 : Int), dig_P2 := p2.1, dig_P3 := p3.1, dig_P4 := p4.1
        dig_P5 := p5.1, dig_P6 := p6.1, dig_P7 := p7.1, dig_P8 := p8.1, dig_P9 := p9.1
        dig_H1 := (toU8 h1.1 : Int)
        dig_H2 := h2.1
        dig_H3 := (toU8 h3.1 : Int)
        dig_H4 := toS16 ((h4a.1 <<< 4) ||| (h4b.1 &&& 0xF))
        dig_H5 := toS16 ((h5a.1 <<< 4) ||| (h5b.1 >>> (4 : Nat)))
        dig_H6 := toS8 h6.1 } }

/-- Status bit 0: the chip is still copying its calibration data
(`Bme280Drv::isReadingCalibration`). -/
def isReadingCalibration (s : Bme280Drv) : Bool × Bme280Drv :=
  let r := s.bus.readRegister BME280_REGISTER_STATUS
  ((toU8 r.1 &&& (1 <<< 0)) != 0, { s with bus := r.2 })

/-- The loop `while (isReadingCalibration()) usleep(1000);` of the device
set-up, run for at most `fuel` status reads; `none` when the bit is still set
after that many reads. -/
def waitCalibration : Nat → Bme280Drv → Option Bme280Drv
  | 0, _ => none
  | fuel + 1, s =>
    let r := isReadingCalibration s
    if r.1 then waitCalibration fuel r.2 else some r.2

/-- Device set-up (`Bme280Drv::initialize`; that word is reserved in Lean).
The result is the returned flag and the state left behind, or `none` when the
calibration wait does not end within `fuel` status reads. -/
def initializeDrv (fuel : Nat) (s : Bme280Drv) : Option (Bool × Bme280Drv) :=
  let r := s.bus.readRegister BME280_REGISTER_CHIPID
  let s := { s with bus := r.2 }
  if r.1 ≠ 0x60 then some (false, s)
  else
    let s := { s with bus := s.bus.writeRegister BME280_REGISTER_SOFTRESET 0xB6 }
    match waitCalibration fuel s with
    | none => none
    | some s =>
      let s := readCoefficients s
      let s := setSamplingDefault s
      let s := calcTFine s
      some (true, s)

/-- Modelled from the spec: `Device.h`, which declares and initialises the
`active` flag, is not among the sources. By the spec the flag is "set true
only if chip-identity verification succeeds during initialization; false
permanently otherwise", so a driver object enters its constructor body with
`active = false`; its other members hold whatever `mem` holds. -/
def deviceBase (mem : Bme280Drv) (bus : I2CDevice) : Bme280Drv :=
  { mem with bus := bus, active := false }

/-- The constructor `Bme280Drv(devfile, altitude, addr)`; the two shorter
constructors have the same body (with `altitude = 0` for the first). -/
def construct (fuel : Nat) (mem : Bme280Drv) (bus : I2CDevice) (altitude : Int) :
    Option Bme280Drv :=
  match initializeDrv fuel (deviceBase mem bus) with
  | none => none
  | some (true, s) => some { s with active := true, stationAltitude := altitude }
  | some (false, s) => some s

/-- The loop of `takeForcedMeasurement` that waits for status bit 3 to clear,
run for at most `fuel` status reads. -/
def waitMeasuring : Nat → Bme280Drv → Option Bme280Drv
  | 0, _ => none
  | fuel + 1, s =>
    let r := s.bus.readRegister BME280_REGISTER_STATUS
    if (toU8 r.1 &&& 0x08) != 0 then waitMeasuring fuel { s with bus := r.2 }
    else some { s with bus := r.2 }

/-- Forced-measurement trigger (`Bme280Drv::takeForcedMeasurement`). -/
def takeForcedMeasurement (fuel : Nat) (s : Bme280Drv) : Option Bme280Drv :=
  if s.measReg.mode = sensor_mode.MODE_FORCED.code then
    waitMeasuring fuel
      { s with bus := s.bus.writeRegister BME280_REGISTER_CONTROL s.measReg.get }
  else some s

/-! ## Reference data -/

/-- Calibration of the Bosch data-sheet example for temperature and pressure,
with typical humidity coefficients. -/
def refCalib : bme280_calib_data :=
  { dig_T1 := 27504, dig_T2 := 26435, dig_T3 := -1000
    dig_P1 := 36477, dig_P2 := -10685, dig_P3 := 3024, dig_P4 := 2855, dig_P5 := 140
    dig_P6 := -7, dig_P7 := 15500, dig_P8 := -14600, dig_P9 := 6000
    dig_H1 := 75, dig_H2 := 353, dig_H3 := 0, dig_H4 := 340, dig_H5 := 0, dig_H6 := 30 }

/-- A register file whose data block 0xF7..0xFE holds the given bytes and
whose other registers hold `other`. -/
def dataRegs (p0 p1 p2 t0 t1 t2 h0 h1 other : Nat) : Nat → Nat := fun a =>
  if a = 0xF7 then p0 else if a = 0xF8 then p1 else if a = 0xF9 then p2
  else if a = 0xFA then t0 else if a = 0xFB then t1 else if a = 0xFC then t2
  else if a = 0xFD then h0 else if a = 0xFE then h1 else other

/-- A bus on which nothing has been issued yet. -/
def freshBus (regs : Nat → Nat) (status : Nat → Nat) : I2CDevice :=
  { regs := regs, status := status, polls := 0, trace := [] }

/-- An active driver over the given register file, with the reference calibration. -/
def refDevice (regs : Nat → Nat) (altitude : Int) : Bme280Drv :=
  { bus := freshBus regs (fun _ => 0)
    active := true
    t_fine := 0
    stationAltitude := altitude
    bme280_calib := refCalib
    configReg := { t_sb := 0, filter := 0 }
    measReg := { osrs_t := 5, osrs_p := 5, mode := 3 }
    humReg := { none := 0, osrs_h := 5 } }

/-- Register file of the Bosch reference vector: raw pressure bytes
0x65 0x5A 0xC0 and raw temperature bytes 0x7E 0xED 0x00; the humidity bytes
0x6E 0x00 are an arbitrary code other than the sentinel. -/
def refRegs : Nat → Nat := dataRegs 0x65 0x5A 0xC0 0x7E 0xED 0x00 0x6E 0x00 0

/-- A driver whose set-up has failed: the reference members, `active` false. -/
def inactiveDevice : Bme280Drv := deviceBase (refDevice refRegs 0) (freshBus refRegs (fun _ => 0))

/-- A stand-in for `pow` over the rationals, for evaluating paths on which
`pow` is not reached. -/
def powQ : ℚ → ℚ → ℚ := fun x _ => x

/-! ## The temperature baseline as the specification words it -/

/-- The 20-bit raw code `(b0·65536 + b1·256 + b2) >> 4` formed from three data bytes. -/
def rawCode20 (b0 b1 b2 : Nat) : Int := ((b0 * 65536 + b1 * 256 + b2 : Nat) : Int) / 16

/-- The raw temperature code held by the registers 0xFA..0xFC of a device. -/
def rawTemp (s : Bme280Drv) : Int :=
  rawCode20 (toU8 (s.bus.regs 0xFA)) (toU8 (s.bus.regs 0xFB)) (toU8 (s.bus.regs 0xFC))

/-- The formula for `t_fine` over unbounded integers; a right shift by `k` is
the division by `2 ^ k` rounded down, a left shift by 1 the doubling. -/
def tFineFormula (adc_T T1 T2 T3 : Int) : Int :=
  ((adc_T / 8 - T1 * 2) * T2) / 2048 +
    ((((adc_T / 16 - T1) * (adc_T / 16 - T1)) / 4096) * T3) / 16384

/-- A value lies in the range of `int32_t`. -/
def fits32 (x : Int) : Prop := -2147483648 ≤ x ∧ x ≤ 2147483647

/-- No intermediate result of `calcTFine` leaves the range of `int32_t`. -/
def calcTFineFits (adc_T T1 T2 T3 : Int) : Prop :=
  fits32 (T1 * 2) ∧ fits32 (adc_T / 8 - T1 * 2) ∧ fits32 ((adc_T / 8 - T1 * 2) * T2) ∧
  fits32 (adc_T / 16 - T1) ∧ fits32 ((adc_T / 16 - T1) * (adc_T / 16 - T1)) ∧
  fits32 ((((adc_T / 16 - T1) * (adc_T / 16 - T1)) / 4096) * T3) ∧
  fits32 (tFineFormula adc_T T1 T2 T3)

/-- An active device with a saturated raw temperature code (bytes 0xFF 0xFF
0xF0) and the calibration `dig_T1 = 27504`, `dig_T2 = 32767`, `dig_T3 = -1000`. -/
def overflowDevice : Bme280Drv :=
  { refDevice (dataRegs 0x65 0x5A 0xC0 0xFF 0xFF 0xF0 0x6E 0x00 0) 0 with
    bme280_calib := { refCalib with dig_T2 := 32767 } }

/-! ## Raw data codes and the states left by the read functions -/

/-- The 24-bit value formed by the raw pressure bytes at 0xF7..0xF9. -/
def rawPressure24 (s : Bme280Drv) : Nat :=
  toU8 (s.bus.regs 0xF7) * 65536 + toU8 (s.bus.regs 0xF8) * 256 + toU8 (s.bus.regs 0xF9)

/-- The big-endian 16-bit value formed by the raw humidity bytes at 0xFD..0xFE. -/
def rawHumidity16 (s : Bme280Drv) : Nat :=
  toU8 (s.bus.regs 0xFD) * 256 + toU8 (s.bus.regs 0xFE)

/-- The state `readValue0` leaves on an active device: `t_fine` recomputed,
one burst read of the temperature bytes and one of the pressure bytes issued. -/
def afterReadValue0 (s : Bme280Drv) : Bme280Drv :=
  { calcTFine s with
    bus := { s.bus with
      trace := s.bus.trace ++ [BusOp.readRegisters 3 BME280_REGISTER_TEMPDATA,
        BusOp.readRegisters 3 BME280_REGISTER_PRESSUREDATA] } }

/-- The state `readValue2` leaves on an active device: `t_fine` recomputed,
one burst read of the temperature bytes and two reads of the humidity bytes. -/
def afterReadValue2 (s : Bme280Drv) : Bme280Drv :=
  { calcTFine s with
    bus := { s.bus with
      trace := s.bus.trace ++ [BusOp.readRegisters 3 BME280_REGISTER_TEMPDATA,
        BusOp.readRegister BME280_REGISTER_HUMIDDATA,
        BusOp.readRegister (BME280_REGISTER_HUMIDDATA + 1)] } }

/-- The Q24.8 pressure `p` that `readValue0` computes on an active device from
the current registers, when the raw code is not the sentinel and the divisor
is not zero. -/
def stationPressureQ24_8 (s : Bme280Drv) : Int :=
  pressureQ24_8 ((rawPressure24 s : Int) / 16)
    (pressureVar1 (calcTFine s).t_fine s.bme280_calib)
    (pressureVar2 (calcTFine s).t_fine s.bme280_calib) s.bme280_calib

/-- The sea-level-adjusted pressure `p_adj` that `readValue0` tests against
the plausible range. -/
def adjustedPressure {K : Type} [LinearOrderedField K] (pow : K → K → K) (s : Bme280Drv) : K :=
  seaLevelPressure pow s.stationAltitude
    (((Int.tdiv (stationPressureQ24_8 s) 256 : Int) : K) / 100)

/-- An active device whose pressure channel is disabled (raw bytes 0x80 0x00 0x00). -/
def pressureOffDevice : Bme280Drv :=
  refDevice (dataRegs 0x80 0x00 0x00 0x7E 0xED 0x00 0x6E 0x00 0) 0

/-- An active device whose humidity channel is disabled (raw bytes 0x80 0x00). -/
def humidityOffDevice : Bme280Drv :=
  refDevice (dataRegs 0x65 0x5A 0xC0 0x7E 0xED 0x00 0x80 0x00 0) 0

/-- An active device at altitude 0 whose raw pressure bytes are 0xFF 0xFF 0xF0
(the largest 20-bit code), with the calibration and the temperature data of
the reference vector. -/
def saturatedPressureDevice : Bme280Drv :=
  refDevice (dataRegs 0xFF 0xFF 0xF0 0x7E 0xED 0x00 0x6E 0x00 0) 0

/-- An active device with `dig_P1 = 0` and the raw data of the reference vector. -/
def zeroP1Device : Bme280Drv :=
  { refDevice refRegs 0 with bme280_calib := { refCalib with dig_P1 := 0 } }

/-- An active device with `dig_P1 = 0` whose pressure channel is disabled
(raw bytes 0x80 0x00 0x00). -/
def zeroP1OffDevice : Bme280Drv :=
  { pressureOffDevice with bme280_calib := { refCalib with dig_P1 := 0 } }

/-- The humidity intermediate `v_x1_u32r` that `readValue2` computes on an
active device from the current registers, before the clamp. -/
def humidityPreClamp (s : Bme280Drv) : Int :=
  humidityRaw (calcTFine s).t_fine (rawHumidity16 s : Int) s.bme280_calib

/-- An active device whose raw humidity bytes 0x00 0x00 give a negative
intermediate before the clamp. -/
def dryDevice : Bme280Drv :=
  refDevice (dataRegs 0x65 0x5A 0xC0 0x7E 0xED 0x00 0x00 0x00 0) 0

/-- An active device whose raw humidity bytes 0xFF 0xFF give an intermediate
above 419430400 before the clamp. -/
def wetDevice : Bme280Drv :=
  refDevice (dataRegs 0x65 0x5A 0xC0 0x7E 0xED 0x00 0xFF 0xFF 0) 0

/-! ## The calibration block as the specification words it -/

/-- The byte held by register `a` of the device's register map. -/
def reg (s : Bme280Drv) (a : Nat) : Nat := toU8 (s.bus.regs a)

/-- The little-endian 16-bit value of the register pair at `a`: `reg[a] + 256·reg[a+1]`. -/
def pairLE (s : Bme280Drv) (a : Nat) : Nat := reg s a + 256 * reg s (a + 1)

/-- Two's-complement signed interpretation of a 16-bit value. -/
def signed16 (x : Nat) : Int := if x < 32768 then (x : Int) else (x : Int) - 65536

/-- Two's-complement signed interpretation of an 8-bit value. -/
def signed8 (x : Nat) : Int := if x < 128 then (x : Int) else (x : Int) - 256

/-- Register contents of a chip that answers the identity check and holds the
reference calibration and the reference data block. -/
def chipBytes : List (Nat × Nat) :=
  [(0xD0, 0x60),
   (0x88, 0x70), (0x89, 0x6B), (0x8A, 0x43), (0x8B, 0x67), (0x8C, 0x18), (0x8D, 0xFC),
   (0x8E, 0x7D), (0x8F, 0x8E), (0x90, 0x43), (0x91, 0xD6), (0x92, 0xD0), (0x93, 0x0B),
   (0x94, 0x27), (0x95, 0x0B), (0x96, 0x8C), (0x97, 0x00), (0x98, 0xF9), (0x99, 0xFF),
   (0x9A, 0x8C), (0x9B, 0x3C), (0x9C, 0xF8), (0x9D, 0xC6), (0x9E, 0x70), (0x9F, 0x17),
   (0xA1, 0x4B), (0xE1, 0x61), (0xE2, 0x01), (0xE3, 0x00), (0xE4, 0x15), (0xE5, 0x04),
   (0xE6, 0x00), (0xE7, 0x1E),
   (0xF7, 0x65), (0xF8, 0x5A), (0xF9, 0xC0), (0xFA, 0x7E), (0xFB, 0xED), (0xFC, 0x00),
   (0xFD, 0x6E), (0xFE, 0x00)]

/-- The register file given by `chipBytes`; a register not listed holds 0. -/
def chipRegs : Nat → Nat := fun a => (chipBytes.lookup a).getD 0

/-- A driver object before its set-up, on a bus over `chipRegs` whose status
register reads `status 0, status 1, ...`; the members hold zeros. -/
def chipDevice (status : Nat → Nat) : Bme280Drv :=
  { bus := freshBus chipRegs status
    active := false
    t_fine := 0
    stationAltitude := 0
    bme280_calib :=
      { dig_T1 := 0, dig_T2 := 0, dig_T3 := 0, dig_P1 := 0, dig_P2 := 0, dig_P3 := 0
        dig_P4 := 0, dig_P5 := 0, dig_P6 := 0, dig_P7 := 0, dig_P8 := 0, dig_P9 := 0
        dig_H1 := 0, dig_H2 := 0, dig_H3 := 0, dig_H4 := 0, dig_H5 := 0, dig_H6 := 0 }
    configReg := { t_sb := 0, filter := 0 }
    measReg := { osrs_t := 0, osrs_p := 0, mode := 0 }
    humReg := { none := 0, osrs_h := 0 } }

/-! ## Bus traffic of the set-up -/

/-- The register reads `readCoefficients` issues, in order. -/
def coeffReads : List BusOp :=
  [BusOp.readRegister 0x88, BusOp.readRegister 0x89, BusOp.readRegister 0x8A,
   BusOp.readRegister 0x8B, BusOp.readRegister 0x8C, BusOp.readRegister 0x8D,
   BusOp.readRegister 0x8E, BusOp.readRegister 0x8F, BusOp.readRegister 0x90,
   BusOp.readRegister 0x91, BusOp.readRegister 0x92, BusOp.readRegister 0x93,
   BusOp.readRegister 0x94, BusOp.readRegister 0x95, BusOp.readRegister 0x96,
   BusOp.readRegister 0x97, BusOp.readRegister 0x98, BusOp.readRegister 0x99,
   BusOp.readRegister 0x9A, BusOp.readRegister 0x9B, BusOp.readRegister 0x9C,
   BusOp.readRegister 0x9D, BusOp.readRegister 0x9E, BusOp.readRegister 0x9F,
   BusOp.readRegister 0xA1, BusOp.readRegister 0xE1, BusOp.readRegister 0xE2,
   BusOp.readRegister 0xE3, BusOp.readRegister 0xE4, BusOp.readRegister 0xE5,
   BusOp.readRegister 0xE6, BusOp.readRegister 0xE5, BusOp.readRegister 0xE7]

/-- The bus operations of a set-up that passes the identity check and finds
status bit 0 set on the first `k` status reads and clear on the next. -/
def setupTrace (k : Nat) (configWrites : List BusOp) : List BusOp :=
  [BusOp.readRegister BME280_REGISTER_CHIPID,
    BusOp.writeRegister BME280_REGISTER_SOFTRESET 0xB6] ++
  List.replicate (k + 1) (BusOp.readRegister BME280_REGISTER_STATUS) ++
  coeffReads ++ configWrites ++ [BusOp.readRegisters 3 BME280_REGISTER_TEMPDATA]

/-- The three writes of a `setSampling` call that leaves the device in state `s`. -/
def samplingWrites (s : Bme280Drv) : List BusOp :=
  [BusOp.writeRegister BME280_REGISTER_CONTROLHUMID (toU8 s.humReg.get),
   BusOp.writeRegister BME280_REGISTER_CONFIG (toU8 s.configReg.get),
   BusOp.writeRegister BME280_REGISTER_CONTROL (toU8 s.measReg.get)]

/-- The bit-field of `width` bits of a register byte whose lowest bit is bit `lo`,
as the hardware reads it. -/
def bitField (byte lo width : Nat) : Nat := (byte / 2 ^ lo) % 2 ^ width

/-- Status stream whose bit 0 is set on the first `k` reads and clear afterwards. -/
def busyFor (k : Nat) : Nat → Nat := fun i => if i < k then 1 else 0

/-- The arithmetic of `calcTFine` on the shifted raw code `adc_T`: the value
stored in `t_fine`. -/
def compensateT (adc_T : Int) (c : bme280_calib_data) : Int :=
  let var1 := wrap32 (wrap32 ((adc_T >>> (3 : Nat)) - wrap32 (shl c.dig_T1 1)) *
      c.dig_T2) >>> (11 : Nat)
  let var2 := wrap32 ((wrap32 (wrap32 ((adc_T >>> (4 : Nat)) - c.dig_T1) *
      wrap32 ((adc_T >>> (4 : Nat)) - c.dig_T1)) >>> (12 : Nat)) *
      c.dig_T3) >>> (14 : Nat)
  wrap32 (var1 + var2)

/-- The default configuration writes as the source issues them. -/
def defaultWrites : List BusOp :=
  [BusOp.writeRegister 0xF2 0x05, BusOp.writeRegister 0xF5 0x00, BusOp.writeRegister 0xF4 0xAB]

/-- The state a successful set-up leaves: identity read, soft reset, `k + 1`
status reads, then `readCoefficients`, `setSampling()` and `calcTFine`. -/
def afterSetup (k : Nat) (s : Bme280Drv) : Bme280Drv :=
  calcTFine (setSamplingDefault (readCoefficients { s with bus := { s.bus with
    polls := s.bus.polls + (k + 1)
    trace := s.bus.trace ++ [BusOp.readRegister BME280_REGISTER_CHIPID] ++
      [BusOp.writeRegister BME280_REGISTER_SOFTRESET (toU8 0xB6)] ++
      List.replicate (k + 1) (BusOp.readRegister BME280_REGISTER_STATUS) } }))

/-- An active device with raw temperature bytes 0x00 0x00 0x00 and the
calibration `dig_T1 = 65535`, `dig_T2 = 0`, `dig_T3 = 1000`, every field within
its C type. -/
def squareOverflowDevice : Bme280Drv :=
  { refDevice (dataRegs 0x65 0x5A 0xC0 0x00 0x00 0x00 0x6E 0x00 0) 0 with
    bme280_calib := { refCalib with dig_T1 := 65535, dig_T2 := 0, dig_T3 := 1000 } }

/-! ## Basic facts about the register helpers -/

theorem toU8_lt (x : Nat) : toU8 x < 256 := Nat.mod_lt _ (by decide)

theorem shl8_or (a b : Nat) (hb : b < 256) : (a <<< 8) ||| b = a * 256 + b := by
  have h := Nat.mul_add_lt_is_or (i := 8) (b := b) (by simpa using hb) a
  rw [Nat.shiftLeft_eq, Nat.mul_comm a (2 ^ 8), ← h]

/-- The value of a three-byte burst read is `b0·65536 + b1·256 + b2`. -/
theorem read24_fst (d : I2CDevice) (a : Nat) :
    (read24 d a).1 =
      toU8 (d.regs a) * 65536 + toU8 (d.regs (a + 1)) * 256 + toU8 (d.regs (a + 2)) := by
  have h0 := toU8_lt (d.regs a)
  have h1 := toU8_lt (d.regs (a + 1))
  have h2 := toU8_lt (d.regs (a + 2))
  simp only [read24, I2CDevice.readRegisters, List.range, List.range.loop, List.map,
    List.getD_cons_zero, List.getD_cons_succ, Nat.add_zero]
  have e1 : toU32 (toU8 (d.regs a) <<< 8) = toU8 (d.regs a) * 256 := by
    rw [Nat.shiftLeft_eq]; unfold toU32; omega
  rw [e1]
  have e2 : toU8 (d.regs a) * 256 ||| toU8 (d.regs (a + 1)) =
      toU8 (d.regs a) * 256 + toU8 (d.regs (a + 1)) := by
    have := shl8_or (toU8 (d.regs a)) _ h1
    rwa [Nat.shiftLeft_eq] at this
  rw [e2]
  have e3 : toU32 ((toU8 (d.regs a) * 256 + toU8 (d.regs (a + 1))) <<< 8) =
      (toU8 (d.regs a) * 256 + toU8 (d.regs (a + 1))) * 256 := by
    rw [Nat.shiftLeft_eq]; unfold toU32; omega
  rw [e3]
  have e4 := shl8_or (toU8 (d.regs a) * 256 + toU8 (d.regs (a + 1))) _ h2
  rw [Nat.shiftLeft_eq] at e4
  rw [show (2:Nat)^8 = 256 by norm_num] at e4
  rw [e4]; ring

/-- A three-byte burst read adds one operation to the trace and changes nothing else. -/
theorem read24_snd (d : I2CDevice) (a : Nat) :
    (read24 d a).2 = { d with trace := d.trace ++ [BusOp.readRegisters 3 a] } := rfl

/-- The value of a big-endian 16-bit read of two data registers. -/
theorem read16_fst (d : I2CDevice) (a : Nat) (ha : a ≠ BME280_REGISTER_STATUS)
    (ha1 : a + 1 ≠ BME280_REGISTER_STATUS) :
    (read16 d a).1 = toU8 (d.regs a) * 256 + toU8 (d.regs (a + 1)) := by
  have h0 := toU8_lt (d.regs a)
  have h1 := toU8_lt (d.regs (a + 1))
  simp only [read16, I2CDevice.readRegister, if_neg ha, if_neg ha1, combineRegisters]
  have e : toU8 (toU8 (d.regs a)) = toU8 (d.regs a) := by unfold toU8; omega
  have e' : toU8 (toU8 (d.regs (a + 1))) = toU8 (d.regs (a + 1)) := by unfold toU8; omega
  rw [e, e', shl8_or _ _ h1]
  unfold toU16; omega

/-- What a value request does on an inactive device. -/
theorem getValueAtIndex_inactive {K : Type} [LinearOrderedField K] (pow : K → K → K)
    (s : Bme280Drv) (index : Int) (h : s.active = false) :
    getValueAtIndex pow s index = some (Reading.literal "none", s) := by
  simp [getValueAtIndex, h]

/-- What a value request does for an index of 3 or more. -/
theorem getValueAtIndex_ge {K : Type} [LinearOrderedField K] (pow : K → K → K)
    (s : Bme280Drv) (index : Int) (h : 3 ≤ index) :
    getValueAtIndex pow s index = some (Reading.literal "none", s) := by
  have h' : ¬ index < ((numValues : Nat) : Int) := by
    simp only [numValues, NUM_VALUES]; omega
  unfold getValueAtIndex
  rw [if_neg h']
  split <;> rfl

/-- A failed identity check: one register read, nothing else. -/
theorem initializeDrv_mismatch (fuel : Nat) (s : Bme280Drv)
    (h : toU8 (s.bus.regs BME280_REGISTER_CHIPID) ≠ 0x60) :
    initializeDrv fuel s = some (false,
      { s with bus := { s.bus with
          trace := s.bus.trace ++ [BusOp.readRegister BME280_REGISTER_CHIPID] } }) := by
  have hne : BME280_REGISTER_CHIPID ≠ BME280_REGISTER_STATUS := by decide
  simp only [initializeDrv, I2CDevice.readRegister, if_neg hne]
  rw [if_pos h]

/-! ## The claims -/

/-- C1: if the chip-identity register (0xD0) holds a byte other than 0x60, the
set-up returns false having issued only the identity read (no register write,
no calibration read, calibration members untouched); the constructor then
leaves `active` false, and every value request for an index in [0,3) returns
the sentinel string of the source and leaves the device as it is, so the same
holds for every later request. -/
theorem identity_mismatch_inactive {K : Type} [LinearOrderedField K] (pow : K → K → K)
    (fuel : Nat) (mem : Bme280Drv) (bus : I2CDevice) (altitude : Int)
    (h : toU8 (bus.regs BME280_REGISTER_CHIPID) ≠ 0x60) :
    initializeDrv fuel (deviceBase mem bus) = some (false,
      { deviceBase mem bus with bus := { bus with
          trace := bus.trace ++ [BusOp.readRegister BME280_REGISTER_CHIPID] } }) ∧
    ∃ d, construct fuel mem bus altitude = some d ∧ d.active = false ∧
      d.bme280_calib = mem.bme280_calib ∧
      d.bus.trace = bus.trace ++ [BusOp.readRegister BME280_REGISTER_CHIPID] ∧
      writesOf d.bus.trace = writesOf bus.trace ∧
      ∀ i : Int, 0 ≤ i → i < 3 → getValueAtIndex pow d i = some (Reading.literal "none", d) := by
  have hi := initializeDrv_mismatch fuel (deviceBase mem bus) h
  refine ⟨hi, { deviceBase mem bus with bus := { bus with
      trace := bus.trace ++ [BusOp.readRegister BME280_REGISTER_CHIPID] } },
    ?_, rfl, rfl, rfl, ?_, ?_⟩
  · simp only [construct, hi]
    rfl
  · simp [writesOf, List.filter_append]
  · intro i _ _
    exact getValueAtIndex_inactive pow _ i rfl

/-- Witness for C1: a bus whose identity register holds 0. -/
theorem identity_mismatch_inactive_witness :
    initializeDrv 0 (deviceBase (refDevice refRegs 0) (freshBus refRegs (fun _ => 0))) =
      some (false,
        { deviceBase (refDevice refRegs 0) (freshBus refRegs (fun _ => 0)) with
          bus := { freshBus refRegs (fun _ => 0) with
            trace := (freshBus refRegs (fun _ => 0)).trace ++
              [BusOp.readRegister BME280_REGISTER_CHIPID] } }) :=
  (identity_mismatch_inactive powQ 0 (refDevice refRegs 0) (freshBus refRegs (fun _ => 0)) 0
    (by decide)).1

/-- C2 (the failing case): on an active device a negative index passes the
only test the source makes (`index < numValues`) and subscripts the table of
read functions below its first entry, so the request has no defined result;
it does not return the sentinel string. -/
theorem getValueAtIndex_negative_active {K : Type} [LinearOrderedField K] (pow : K → K → K)
    (s : Bme280Drv) (index : Int) (ha : s.active = true) (hi : index < 0) :
    getValueAtIndex pow s index = none := by
  have h1 : index < ((numValues : Nat) : Int) := by
    simp only [numValues, NUM_VALUES]; omega
  have h2 : ¬ 0 ≤ index := by omega
  simp [getValueAtIndex, ha, h1, h2]

/-- Witness for C2: index −1 on the active reference device. -/
theorem getValueAtIndex_negative_active_witness :
    getValueAtIndex powQ (refDevice refRegs 0) (-1) = none :=
  getValueAtIndex_negative_active powQ (refDevice refRegs 0) (-1) rfl (by decide)

/-- C4: on an inactive device a value request for any index, and each of the
three read functions, returns the sentinel string of the source and leaves the
whole device state, the bus trace and `t_fine` included, as it was. -/
theorem inactive_short_circuit {K : Type} [LinearOrderedField K] (pow : K → K → K)
    (s : Bme280Drv) (h : s.active = false) :
    (∀ i : Int, getValueAtIndex pow s i = some (Reading.literal "none", s)) ∧
    readValue0 pow s = (Reading.literal "none", s) ∧
    readValue1 s = ((Reading.literal "none" : Reading K), s) ∧
    readValue2 s = ((Reading.literal "none" : Reading K), s) := by
  refine ⟨fun i => getValueAtIndex_inactive pow s i h, ?_, ?_, ?_⟩
  · simp [readValue0, h]
  · simp [readValue1, h]
  · simp [readValue2, h]

/-- Witness for C4: the device left behind by a failed set-up. -/
theorem inactive_short_circuit_witness :
    readValue0 powQ inactiveDevice = (Reading.literal "none", inactiveDevice) ∧
    getValueAtIndex powQ inactiveDevice (-1) = some (Reading.literal "none", inactiveDevice) :=
  ⟨(inactive_short_circuit powQ inactiveDevice rfl).2.1,
    (inactive_short_circuit powQ inactiveDevice rfl).1 (-1)⟩

theorem wrap32_of_fits (x : Int) (h : fits32 x) : wrap32 x = x := by
  unfold fits32 at h; unfold wrap32; omega

theorem wrap32_bounds (x : Int) : -2147483648 ≤ wrap32 x ∧ wrap32 x ≤ 2147483647 := by
  unfold wrap32; omega

theorem shr_eq_div (x : Int) (k : Nat) : x >>> k = x / ((2 ^ k : Nat) : Int) :=
  Int.shiftRight_eq_div_pow x k

/-- The raw temperature code the source forms in `adc_T`. -/
theorem adc_T_eq (s : Bme280Drv) :
    wrap32 ((read24 s.bus BME280_REGISTER_TEMPDATA).1 : Int) >>> (4 : Nat) = rawTemp s := by
  have h0 := toU8_lt (s.bus.regs 0xFA)
  have h1 := toU8_lt (s.bus.regs 0xFB)
  have h2 := toU8_lt (s.bus.regs 0xFC)
  rw [read24_fst, shr_eq_div]
  simp only [BME280_REGISTER_TEMPDATA, rawTemp, rawCode20]
  norm_num
  rw [wrap32_of_fits]
  unfold fits32; omega


/-- What `calcTFine` changes: the bus trace grows by one burst read and
`t_fine` is overwritten; nothing else. -/
theorem calcTFine_frame (s : Bme280Drv) :
    calcTFine s = { s with
      bus := { s.bus with
        trace := s.bus.trace ++ [BusOp.readRegisters 3 BME280_REGISTER_TEMPDATA] }
      t_fine := (calcTFine s).t_fine } := rfl

/-- Whenever no intermediate result overflows, `calcTFine` stores the value of
the formula over unbounded integers. -/
theorem calcTFine_eq_formula (s : Bme280Drv)
    (hfit : calcTFineFits (rawTemp s) s.bme280_calib.dig_T1 s.bme280_calib.dig_T2
      s.bme280_calib.dig_T3) :
    (calcTFine s).t_fine = tFineFormula (rawTemp s) s.bme280_calib.dig_T1
      s.bme280_calib.dig_T2 s.bme280_calib.dig_T3 := by
  obtain ⟨f1, f2, f3, f4, f5, f6, f7⟩ := hfit
  simp only [calcTFine, adc_T_eq]
  simp only [shr_eq_div, shl]
  norm_num
  rw [wrap32_of_fits _ f1, wrap32_of_fits _ f2, wrap32_of_fits _ f3, wrap32_of_fits _ f4,
    wrap32_of_fits _ f5, wrap32_of_fits _ f6]
  exact wrap32_of_fits _ f7

/-- The stored `t_fine` is small: both terms are shifted 32-bit values. -/
theorem calcTFine_bound (s : Bme280Drv) :
    -1179648 ≤ (calcTFine s).t_fine ∧ (calcTFine s).t_fine ≤ 1179646 := by
  have key : ∀ x y : Int, -1179648 ≤ wrap32 (wrap32 x / 2048 + wrap32 y / 16384) ∧
      wrap32 (wrap32 x / 2048 + wrap32 y / 16384) ≤ 1179646 := by
    intro x y
    have hx := wrap32_bounds x
    have hy := wrap32_bounds y
    have hw : wrap32 (wrap32 x / 2048 + wrap32 y / 16384) =
        wrap32 x / 2048 + wrap32 y / 16384 := by
      apply wrap32_of_fits; unfold fits32; omega
    rw [hw]; omega
  simp only [calcTFine, shr_eq_div]
  norm_num
  exact key _ _


/-- C5 (as stated, refuted): with a saturated raw code and `dig_T2 = 32767`
the product `((adc_T >> 3) − (dig_T1 << 1)) · dig_T2` is 2492356321, beyond
the range of `int32_t`; the source stores −901735 while the formula over the
integers gives 1195417. -/
theorem calcTFine_overflow_counterexample :
    (calcTFine overflowDevice).t_fine = -901735 ∧
    tFineFormula (rawTemp overflowDevice) overflowDevice.bme280_calib.dig_T1
      overflowDevice.bme280_calib.dig_T2 overflowDevice.bme280_calib.dig_T3 = 1195417 ∧
    (calcTFine overflowDevice).t_fine ≠
      tFineFormula (rawTemp overflowDevice) overflowDevice.bme280_calib.dig_T1
        overflowDevice.bme280_calib.dig_T2 overflowDevice.bme280_calib.dig_T3 := by
  decide

/-- C5 (amended): whenever no intermediate result of `calcTFine` leaves the
signed 32-bit range, `calcTFine` sets `t_fine` to
`((((adc_T >> 3) − (dig_T1 << 1)) · dig_T2) >> 11) +
 ((((((adc_T >> 4) − dig_T1) · ((adc_T >> 4) − dig_T1)) >> 12) · dig_T3) >> 14)`
with right shifts rounding down, where `adc_T = (b0·65536 + b1·256 + b2) >> 4`
is formed from the bytes at 0xFA..0xFC, and changes nothing else but the bus
trace; for the Bosch reference vector (`adc_T = 519888`) the value is 128422. -/
theorem calcTFine_formula (s : Bme280Drv)
    (hfit : calcTFineFits (rawTemp s) s.bme280_calib.dig_T1 s.bme280_calib.dig_T2
      s.bme280_calib.dig_T3) :
    calcTFine s = { s with
      bus := { s.bus with
        trace := s.bus.trace ++ [BusOp.readRegisters 3 BME280_REGISTER_TEMPDATA] }
      t_fine := tFineFormula (rawTemp s) s.bme280_calib.dig_T1 s.bme280_calib.dig_T2
        s.bme280_calib.dig_T3 } ∧
    rawCode20 0x7E 0xED 0x00 = 519888 ∧
    tFineFormula 519888 27504 26435 (-1000) = 128422 ∧
    (calcTFine (refDevice refRegs 0)).t_fine = 128422 := by
  refine ⟨?_, by decide, by decide, by decide⟩
  rw [calcTFine_frame, calcTFine_eq_formula s hfit]

/-- Witness for C5: the reference device satisfies the range condition. -/
theorem calcTFine_formula_witness :
    calcTFineFits (rawTemp (refDevice refRegs 0)) 27504 26435 (-1000) ∧
    (calcTFine (refDevice refRegs 0)).t_fine =
      tFineFormula (rawTemp (refDevice refRegs 0)) 27504 26435 (-1000) :=
  ⟨by unfold calcTFineFits fits32; decide,
    congrArg Bme280Drv.t_fine
      (calcTFine_formula (refDevice refRegs 0) (by unfold calcTFineFits fits32; decide)).1⟩


/-- The temperature conversion on an active device, with the 32-bit
arithmetic resolved: no step overflows for a stored `t_fine`. -/
theorem readValue1_active {K : Type} [LinearOrderedField K] (s : Bme280Drv)
    (ha : s.active = true) :
    (readValue1 s : Reading K × Bme280Drv) =
      (Reading.formatted (((((calcTFine s).t_fine * 5 + 128) / 256 : Int) : K) / 100) 1,
        calcTFine s) := by
  have hb := calcTFine_bound s
  have h1 : wrap32 ((calcTFine s).t_fine * 5) = (calcTFine s).t_fine * 5 := by
    apply wrap32_of_fits; unfold fits32; omega
  have h2 : wrap32 ((calcTFine s).t_fine * 5 + 128) = (calcTFine s).t_fine * 5 + 128 := by
    apply wrap32_of_fits; unfold fits32; omega
  simp only [readValue1, ha, Bool.not_true, Bool.false_eq_true, if_false, h1, h2, shr_eq_div]
  norm_num

/-- C6: for every `t_fine` that `calcTFine` stores, the temperature reading of
an active device is the rational `((t_fine·5 + 128) >> 8) / 100` degrees
Celsius, that is `floor((5·t_fine + 128)/256)` hundredths of a degree, handed
to the formatter with one decimal place; for `t_fine = 128422` (the reference
vector) this is 2508/100 = 25.08. -/
theorem temperature_reading {K : Type} [LinearOrderedField K] (s : Bme280Drv)
    (ha : s.active = true) :
    (readValue1 s : Reading K × Bme280Drv) =
      (Reading.formatted (((((calcTFine s).t_fine * 5 + 128) / 256 : Int) : K) / 100) 1,
        calcTFine s) ∧
    (((calcTFine s).t_fine * 5 + 128) / 256 : Int) =
      ⌊((5 * (calcTFine s).t_fine + 128 : Int) : ℚ) / 256⌋ ∧
    ((128422 * 5 + 128) / 256 : Int) = 2508 := by
  refine ⟨readValue1_active s ha, ?_, by decide⟩
  rw [show (256 : ℚ) = ((256 : ℕ) : ℚ) by norm_num, Rat.floor_intCast_div_natCast]
  rw [mul_comm]
  rfl

/-- Witness for C6: the reference device reads 2508/100 degrees. -/
theorem temperature_reading_witness :
    (readValue1 (refDevice refRegs 0) : Reading ℚ × Bme280Drv) =
      (Reading.formatted (((((calcTFine (refDevice refRegs 0)).t_fine * 5 + 128) / 256 : Int)
        : ℚ) / 100) 1, calcTFine (refDevice refRegs 0)) ∧
    ((((calcTFine (refDevice refRegs 0)).t_fine * 5 + 128) / 256 : Int) : ℚ) / 100 = 2508 / 100 :=
  ⟨(temperature_reading (refDevice refRegs 0) rfl).1, by
    rw [show (((calcTFine (refDevice refRegs 0)).t_fine * 5 + 128) / 256 : Int) = 2508 by decide]
    norm_num⟩

/-- The stored `t_fine` depends only on the register file and the calibration. -/
theorem calcTFine_congr (s s' : Bme280Drv) (hr : s.bus.regs = s'.bus.regs)
    (hc : s.bme280_calib = s'.bme280_calib) :
    (calcTFine s).t_fine = (calcTFine s').t_fine := by
  simp only [calcTFine, read24, I2CDevice.readRegisters, hr, hc]

/-- The raw pressure value the source compares with 0x800000. -/
theorem adc_P_eq (s : Bme280Drv) :
    wrap32 ((read24 (calcTFine s).bus BME280_REGISTER_PRESSUREDATA).1 : Int) =
      (rawPressure24 s : Int) := by
  have h0 := toU8_lt (s.bus.regs 0xF7)
  have h1 := toU8_lt (s.bus.regs 0xF8)
  have h2 := toU8_lt (s.bus.regs 0xF9)
  rw [read24_fst]
  have hr : (calcTFine s).bus.regs = s.bus.regs := rfl
  simp only [hr, BME280_REGISTER_PRESSUREDATA, rawPressure24]
  norm_num
  apply wrap32_of_fits
  unfold fits32; omega

/-- The pressure conversion on an active device, with the register reads resolved. -/
theorem readValue0_active {K : Type} [LinearOrderedField K] (pow : K → K → K)
    (s : Bme280Drv) (ha : s.active = true) :
    readValue0 pow s =
      (if (rawPressure24 s : Int) = 0x800000 then Reading.literal "none"
        else if pressureVar1 (calcTFine s).t_fine s.bme280_calib = 0 then Reading.literal "0"
        else if adjustedPressure pow s < 850 ∨ adjustedPressure pow s > 1090
          then Reading.literal "none"
        else Reading.formatted (adjustedPressure pow s) 2,
        afterReadValue0 s) := by
  have hst : ({ bus := (read24 (calcTFine s).bus BME280_REGISTER_PRESSUREDATA).2
                active := (calcTFine s).active
                t_fine := (calcTFine s).t_fine
                stationAltitude := s.stationAltitude
                bme280_calib := s.bme280_calib
                configReg := (calcTFine s).configReg
                measReg := (calcTFine s).measReg
                humReg := (calcTFine s).humReg } : Bme280Drv) = afterReadValue0 s := by
    simp [afterReadValue0, read24_snd, calcTFine]
  have hc : (calcTFine s).bme280_calib = s.bme280_calib := rfl
  have hal : (calcTFine s).stationAltitude = s.stationAltitude := rfl
  simp only [readValue0, ha, Bool.not_true, Bool.false_eq_true, if_false, adc_P_eq,
    shr_eq_div, hc, hal, adjustedPressure, stationPressureQ24_8]
  norm_num
  split_ifs <;> exact congrArg (Prod.mk _) hst

/-- The raw humidity value the source compares with 0x8000. -/
theorem adc_H_eq (s : Bme280Drv) :
    wrap32 ((read16 (calcTFine s).bus BME280_REGISTER_HUMIDDATA).1 : Int) =
      (rawHumidity16 s : Int) := by
  have h0 := toU8_lt (s.bus.regs 0xFD)
  have h1 := toU8_lt (s.bus.regs 0xFE)
  rw [read16_fst _ _ (by decide) (by decide)]
  have hr : (calcTFine s).bus.regs = s.bus.regs := rfl
  simp only [hr, BME280_REGISTER_HUMIDDATA, rawHumidity16]
  norm_num
  apply wrap32_of_fits
  unfold fits32; omega

/-- The bus after the two byte reads of a 16-bit read of data registers. -/
theorem read16_snd (d : I2CDevice) (a : Nat) (ha : a ≠ BME280_REGISTER_STATUS)
    (ha1 : a + 1 ≠ BME280_REGISTER_STATUS) :
    (read16 d a).2 = { d with
      trace := d.trace ++ [BusOp.readRegister a, BusOp.readRegister (a + 1)] } := by
  simp [read16, I2CDevice.readRegister, if_neg ha, if_neg ha1]

/-- The humidity conversion on an active device, with the register reads resolved. -/
theorem readValue2_active {K : Type} [LinearOrderedField K] (s : Bme280Drv)
    (ha : s.active = true) :
    (readValue2 s : Reading K × Bme280Drv) =
      (if (rawHumidity16 s : Int) = 0x8000 then Reading.literal "none"
        else Reading.formatted
          (((humidityClamp (humidityRaw (calcTFine s).t_fine (rawHumidity16 s : Int)
            s.bme280_calib) / 4096 : Int) : K) / 1024) 1,
        afterReadValue2 s) := by
  have hst : ({ bus := (read16 (calcTFine s).bus BME280_REGISTER_HUMIDDATA).2
                active := (calcTFine s).active
                t_fine := (calcTFine s).t_fine
                stationAltitude := (calcTFine s).stationAltitude
                bme280_calib := (calcTFine s).bme280_calib
                configReg := (calcTFine s).configReg
                measReg := (calcTFine s).measReg
                humReg := (calcTFine s).humReg } : Bme280Drv) = afterReadValue2 s := by
    rw [read16_snd _ _ (by decide) (by decide)]
    simp [afterReadValue2, calcTFine, read24_snd]
  have hc : (calcTFine s).bme280_calib = s.bme280_calib := rfl
  simp only [readValue2, ha, Bool.not_true, Bool.false_eq_true, if_false, adc_H_eq]
  split_ifs
  · exact congrArg (Prod.mk _) hst
  · rw [shr_eq_div]
    norm_num
    exact ⟨by rw [hc], hst⟩


/-- At station altitude 0 the sea-level adjustment of a pressure above 3/10 hPa
is the subtraction of 3/10 hPa, for every `pow` with `pow 1 y = 1`. -/
theorem seaLevelPressure_zero {K : Type} [LinearOrderedField K] (pow : K → K → K)
    (h1 : ∀ y, pow 1 y = 1) (x : K) (_hx : 3 / 10 < x) :
    seaLevelPressure pow 0 x = x - 3 / 10 := by
  simp [seaLevelPressure, h1]

theorem refDevice_rawPressure (altitude : Int) :
    rawPressure24 (refDevice refRegs altitude) = 0x655AC0 := by
  simp [rawPressure24, refDevice, freshBus, refRegs, dataRegs, toU8]

theorem refDevice_t_fine (altitude : Int) :
    (calcTFine (refDevice refRegs altitude)).t_fine = 128422 := by
  rw [calcTFine_congr (refDevice refRegs altitude) (refDevice refRegs 0) rfl rfl]
  decide

theorem refDevice_station_pressure (altitude : Int) :
    stationPressureQ24_8 (refDevice refRegs altitude) = 25767233 := by
  unfold stationPressureQ24_8
  rw [refDevice_rawPressure, refDevice_t_fine]
  show pressureQ24_8 (((0x655AC0 : Nat) : Int) / 16) (pressureVar1 128422 refCalib)
    (pressureVar2 128422 refCalib) refCalib = 25767233
  decide

/-- The adjusted pressure of the reference device is the adjustment of 1006.53 hPa. -/
theorem refDevice_adjusted {K : Type} [LinearOrderedField K] (pow : K → K → K)
    (altitude : Int) :
    adjustedPressure pow (refDevice refRegs altitude) =
      seaLevelPressure pow altitude ((100653 : K) / 100) := by
  unfold adjustedPressure
  rw [refDevice_station_pressure]
  have : Int.tdiv 25767233 256 = 100653 := by decide
  rw [this]
  norm_num [refDevice]

/-- The pressure reading of the reference device. -/
theorem refDevice_readValue0 {K : Type} [LinearOrderedField K] (pow : K → K → K)
    (altitude : Int) :
    (readValue0 pow (refDevice refRegs altitude)).1 =
      (if seaLevelPressure pow altitude ((100653 : K) / 100) < 850 ∨
          seaLevelPressure pow altitude ((100653 : K) / 100) > 1090
        then Reading.literal "none"
        else Reading.formatted (seaLevelPressure pow altitude ((100653 : K) / 100)) 2) := by
  rw [readValue0_active pow _ rfl, refDevice_adjusted, refDevice_rawPressure, refDevice_t_fine]
  have hv : pressureVar1 128422 (refDevice refRegs altitude).bme280_calib ≠ 0 := by
    show pressureVar1 128422 refCalib ≠ 0
    decide
  simp only [if_neg hv]
  norm_num

/-- C7: for the Bosch reference vector (raw pressure bytes 0x65 0x5A 0xC0,
that is the 20-bit code 415148, `t_fine = 128422`, `dig_P1..dig_P9` of the
reference calibration) the 64-bit pipeline of `readValue0` yields the Q24.8
value 25767233, whose whole-Pascal part `p/256` is 100653 Pa; the value handed
to the sea-level adjustment is 100653/100 = 1006.53 hPa. -/
theorem pressure_reference_vector {K : Type} [LinearOrderedField K] (pow : K → K → K)
    (altitude : Int) :
    (rawPressure24 (refDevice refRegs altitude) : Int) / 16 = 415148 ∧
    (calcTFine (refDevice refRegs altitude)).t_fine = 128422 ∧
    pressureVar1 128422 refCalib ≠ 0 ∧
    pressureQ24_8 415148 (pressureVar1 128422 refCalib) (pressureVar2 128422 refCalib)
      refCalib = 25767233 ∧
    stationPressureQ24_8 (refDevice refRegs altitude) = 25767233 ∧
    Int.tdiv 25767233 256 = 100653 ∧
    adjustedPressure pow (refDevice refRegs altitude) =
      seaLevelPressure pow altitude ((100653 : K) / 100) ∧
    (readValue0 pow (refDevice refRegs altitude)).1 =
      (if seaLevelPressure pow altitude ((100653 : K) / 100) < 850 ∨
          seaLevelPressure pow altitude ((100653 : K) / 100) > 1090
        then Reading.literal "none"
        else Reading.formatted (seaLevelPressure pow altitude ((100653 : K) / 100)) 2) := by
  refine ⟨?_, refDevice_t_fine altitude, by decide, by decide,
    refDevice_station_pressure altitude, by decide, refDevice_adjusted pow altitude,
    refDevice_readValue0 pow altitude⟩
  rw [refDevice_rawPressure]; decide

/-- On an active device the indices 0, 1, 2 reach the three read functions. -/
theorem getValueAtIndex_active {K : Type} [LinearOrderedField K] (pow : K → K → K)
    (s : Bme280Drv) (ha : s.active = true) :
    getValueAtIndex pow s 0 = some (readValue0 pow s) ∧
    getValueAtIndex pow s 1 = some (readValue1 s) ∧
    getValueAtIndex pow s 2 = some (readValue2 s) := by
  refine ⟨?_, ?_, ?_⟩ <;>
    simp [getValueAtIndex, ha, numValues, NUM_VALUES, readFunction]

/-- C9: on an active device whose raw pressure bytes at 0xF7..0xF9 form the
24-bit value 0x800000, `readValue0` returns the sentinel string, whatever the
calibration, the temperature data and the station altitude are; the state it
leaves holds the recomputed `t_fine` and the two burst reads, and neither the
result nor the state depends on `pow` or on any pressure coefficient: the
compensation arithmetic is not reached. -/
theorem pressure_sentinel {K : Type} [LinearOrderedField K] (pow : K → K → K)
    (s : Bme280Drv) (ha : s.active = true) (hraw : rawPressure24 s = 0x800000) :
    readValue0 pow s = (Reading.literal "none", afterReadValue0 s) ∧
    getValueAtIndex pow s 0 = some (Reading.literal "none", afterReadValue0 s) := by
  have h : readValue0 pow s = (Reading.literal "none", afterReadValue0 s) := by
    rw [readValue0_active pow s ha, hraw]
    norm_num
  exact ⟨h, by rw [(getValueAtIndex_active pow s ha).1, h]⟩

/-- Witness for C9: raw pressure bytes 0x80 0x00 0x00. -/
theorem pressure_sentinel_witness :
    readValue0 powQ pressureOffDevice =
      (Reading.literal "none", afterReadValue0 pressureOffDevice) :=
  (pressure_sentinel powQ pressureOffDevice rfl (by decide)).1

/-- C10: on an active device whose raw humidity bytes at 0xFD..0xFE form the
big-endian 16-bit value 0x8000, `readValue2` returns the sentinel string,
whatever the calibration and the temperature data are. -/
theorem humidity_sentinel {K : Type} [LinearOrderedField K] (pow : K → K → K)
    (s : Bme280Drv) (ha : s.active = true) (hraw : rawHumidity16 s = 0x8000) :
    (readValue2 s : Reading K × Bme280Drv) = (Reading.literal "none", afterReadValue2 s) ∧
    getValueAtIndex pow s 2 = some (Reading.literal "none", afterReadValue2 s) := by
  have h : (readValue2 s : Reading K × Bme280Drv) =
      (Reading.literal "none", afterReadValue2 s) := by
    rw [readValue2_active s ha, hraw]
    norm_num
  exact ⟨h, by rw [(getValueAtIndex_active pow s ha).2.2, h]⟩

/-- Witness for C10: raw humidity bytes 0x80 0x00. -/
theorem humidity_sentinel_witness :
    (readValue2 humidityOffDevice : Reading ℚ × Bme280Drv) =
      (Reading.literal "none", afterReadValue2 humidityOffDevice) :=
  (humidity_sentinel powQ humidityOffDevice rfl (by decide)).1

/-- C8 (as stated, refuted): at station altitude 0 the sea-level adjustment
turns the 1006.53 hPa of the reference vector into 1006.23 hPa, and that is the
value `readValue0` hands to the formatter; `pow` is the real power function. -/
theorem sea_level_unchanged_counterexample :
    seaLevelPressure Real.rpow 0 ((100653 : ℝ) / 100) = 100623 / 100 ∧
    seaLevelPressure Real.rpow 0 ((100653 : ℝ) / 100) ≠ 100653 / 100 ∧
    (readValue0 Real.rpow (refDevice refRegs 0)).1 = Reading.formatted ((100623 : ℝ) / 100) 2 ∧
    (readValue0 Real.rpow (refDevice refRegs 0)).1 ≠
      Reading.formatted ((100653 : ℝ) / 100) 2 := by
  have h1 : ∀ y : ℝ, Real.rpow 1 y = 1 := fun y => Real.one_rpow y
  have hs : seaLevelPressure Real.rpow 0 ((100653 : ℝ) / 100) = 100623 / 100 := by
    rw [seaLevelPressure_zero Real.rpow h1 _ (by norm_num)]; norm_num
  have hr : (readValue0 Real.rpow (refDevice refRegs 0)).1 =
      Reading.formatted ((100623 : ℝ) / 100) 2 := by
    rw [refDevice_readValue0 Real.rpow 0, hs]
    norm_num
  refine ⟨hs, ?_, hr, ?_⟩
  · rw [hs]; norm_num
  · rw [hr]
    intro h
    injection h with h _
    norm_num at h

/-- C8 (amended): for a device at the default station altitude 0 the
sea-level adjustment `seaLevelPressure` subtracts 0.3 hPa from every measured
pressure above 0.3 hPa (for every `pow` with `pow(1, y) = 1`), so the pressure
reading reported for the Bosch reference vector (station pressure 100653 Pa)
is 1006.23 hPa, handed to the formatter with two decimal places. -/
theorem sea_level_offset_at_altitude_zero {K : Type} [LinearOrderedField K] (pow : K → K → K)
    (h1 : ∀ y, pow 1 y = 1) :
    (∀ x : K, 3 / 10 < x → seaLevelPressure pow 0 x = x - 3 / 10) ∧
    readValue0 pow (refDevice refRegs 0) =
      (Reading.formatted ((100623 : K) / 100) 2, afterReadValue0 (refDevice refRegs 0)) := by
  refine ⟨fun x hx => seaLevelPressure_zero pow h1 x hx, ?_⟩
  have hs : seaLevelPressure pow 0 ((100653 : K) / 100) = 100623 / 100 := by
    rw [seaLevelPressure_zero pow h1 _ (by norm_num)]; norm_num
  have h := refDevice_readValue0 pow 0
  rw [hs] at h
  have h2 : (readValue0 pow (refDevice refRegs 0)).2 = afterReadValue0 (refDevice refRegs 0) := by
    rw [readValue0_active pow _ rfl]
  refine Prod.ext ?_ h2
  rw [h]
  norm_num

/-- Witness for C8: the real power function and the 1006.53 hPa of the
reference vector. -/
theorem sea_level_offset_at_altitude_zero_witness :
    seaLevelPressure Real.rpow 0 ((100653 : ℝ) / 100) = 100653 / 100 - 3 / 10 ∧
    readValue0 Real.rpow (refDevice refRegs 0) =
      (Reading.formatted ((100623 : ℝ) / 100) 2, afterReadValue0 (refDevice refRegs 0)) :=
  ⟨(sea_level_offset_at_altitude_zero Real.rpow (fun y => Real.one_rpow y)).1 _ (by norm_num),
    (sea_level_offset_at_altitude_zero Real.rpow (fun y => Real.one_rpow y)).2⟩


/-- C3 (as stated, refuted): the string returned for an unavailable reading is
the literal "none", which is not the literal "no data"; shown on an inactive
device and on an active one whose pressure channel is disabled. -/
theorem sentinel_literal_counterexample :
    (getValueAtIndex powQ inactiveDevice 0).map Prod.fst = some (Reading.literal "none") ∧
    (getValueAtIndex powQ inactiveDevice 0).map Prod.fst ≠ some (Reading.literal "no data") ∧
    (readValue0 powQ pressureOffDevice).1 = Reading.literal "none" ∧
    (readValue0 powQ pressureOffDevice).1 ≠ Reading.literal "no data" := by
  have h1 : (getValueAtIndex powQ inactiveDevice 0).map Prod.fst =
      some (Reading.literal "none") := by
    rw [getValueAtIndex_inactive powQ inactiveDevice 0 rfl]; rfl
  have h2 : (readValue0 powQ pressureOffDevice).1 = Reading.literal "none" := by
    rw [readValue0_active powQ pressureOffDevice rfl]
    have : rawPressure24 pressureOffDevice = 0x800000 := by decide
    rw [this]; norm_num
  refine ⟨h1, ?_, h2, ?_⟩
  · rw [h1]; intro h
    injection h with h
    injection h with h
    exact absurd h (by decide)
  · rw [h2]; intro h
    injection h with h
    exact absurd h (by decide)

/-- On an inactive device `readValue0` returns the sentinel string at once. -/
theorem readValue0_inactive {K : Type} [LinearOrderedField K] (pow : K → K → K)
    (s : Bme280Drv) (h : s.active = false) :
    readValue0 pow s = (Reading.literal "none", s) := by
  simp [readValue0, h]

/-- On an inactive device `readValue1` returns the sentinel string at once. -/
theorem readValue1_inactive {K : Type} [LinearOrderedField K] (s : Bme280Drv)
    (h : s.active = false) :
    (readValue1 s : Reading K × Bme280Drv) = (Reading.literal "none", s) := by
  simp [readValue1, h]

/-- On an inactive device `readValue2` returns the sentinel string at once. -/
theorem readValue2_inactive {K : Type} [LinearOrderedField K] (s : Bme280Drv)
    (h : s.active = false) :
    (readValue2 s : Reading K × Bme280Drv) = (Reading.literal "none", s) := by
  simp [readValue2, h]

/-- The string literals `readValue0` can return are "none" and "0". -/
theorem readValue0_literal {K : Type} [LinearOrderedField K] (pow : K → K → K)
    (s : Bme280Drv) (text : String) (h : (readValue0 pow s).1 = Reading.literal text) :
    text = "none" ∨ text = "0" := by
  cases ha : s.active
  · rw [readValue0_inactive pow s ha] at h
    exact Or.inl (Reading.literal.inj h).symm
  · rw [readValue0_active pow s ha] at h
    dsimp only at h
    split_ifs at h
    · exact Or.inl (Reading.literal.inj h).symm
    · exact Or.inr (Reading.literal.inj h).symm
    · exact Or.inl (Reading.literal.inj h).symm

/-- Past the sentinel test and the zero test, the only string literal
`readValue0` can return is "none". -/
theorem readValue0_compensated_literal {K : Type} [LinearOrderedField K] (pow : K → K → K)
    (s : Bme280Drv) (ha : s.active = true) (hraw : rawPressure24 s ≠ 0x800000)
    (hv : pressureVar1 (calcTFine s).t_fine s.bme280_calib ≠ 0) (text : String)
    (h : (readValue0 pow s).1 = Reading.literal text) : text = "none" := by
  have hraw' : ¬ ((rawPressure24 s : Nat) : Int) = 0x800000 := by
    intro h'; exact hraw (by exact_mod_cast h')
  rw [readValue0_active pow s ha, if_neg hraw', if_neg hv] at h
  dsimp only at h
  split_ifs at h
  exact (Reading.literal.inj h).symm

/-- The only string literal `readValue1` can return is "none". -/
theorem readValue1_literal {K : Type} [LinearOrderedField K] (s : Bme280Drv) (text : String)
    (h : (readValue1 s : Reading K × Bme280Drv).1 = Reading.literal text) :
    text = "none" := by
  cases ha : s.active
  · rw [readValue1_inactive s ha] at h
    exact (Reading.literal.inj h).symm
  · rw [readValue1_active s ha] at h
    exact Reading.noConfusion h

/-- The only string literal `readValue2` can return is "none". -/
theorem readValue2_literal {K : Type} [LinearOrderedField K] (s : Bme280Drv) (text : String)
    (h : (readValue2 s : Reading K × Bme280Drv).1 = Reading.literal text) :
    text = "none" := by
  cases ha : s.active
  · rw [readValue2_inactive s ha] at h
    exact (Reading.literal.inj h).symm
  · rw [readValue2_active s ha] at h
    dsimp only at h
    split_ifs at h
    exact (Reading.literal.inj h).symm

/-- C3 (amended): the string returned for an unavailable reading is exactly
the literal "none": on an inactive device for every index, on any device for
an index of 3 or more, and on an active device whose raw pressure code is
0x800000 or whose raw humidity code is 0x8000. It is also the only string
literal the failing range test of the pressure can return: `readValue0`
returns no literal other than "none" and the "0" of the zero divisor, and none
other than "none" once the pressure channel is enabled and the divisor is not
zero; `readValue1` and `readValue2` return no literal other than "none". -/
theorem sentinel_literal {K : Type} [LinearOrderedField K] (pow : K → K → K)
    (s : Bme280Drv) :
    (s.active = false → ∀ i : Int,
      (getValueAtIndex pow s i).map Prod.fst = some (Reading.literal "none")) ∧
    (∀ i : Int, 3 ≤ i →
      (getValueAtIndex pow s i).map Prod.fst = some (Reading.literal "none")) ∧
    (s.active = true → rawPressure24 s = 0x800000 →
      (getValueAtIndex pow s 0).map Prod.fst = some (Reading.literal "none")) ∧
    (s.active = true → rawHumidity16 s = 0x8000 →
      (getValueAtIndex pow s 2).map Prod.fst = some (Reading.literal "none")) ∧
    (∀ text : String, text ≠ "none" → text ≠ "0" →
      (readValue0 pow s).1 ≠ Reading.literal text) ∧
    (s.active = true → rawPressure24 s ≠ 0x800000 →
      pressureVar1 (calcTFine s).t_fine s.bme280_calib ≠ 0 →
      ∀ text : String, text ≠ "none" → (readValue0 pow s).1 ≠ Reading.literal text) ∧
    (∀ text : String, text ≠ "none" →
      (readValue1 s : Reading K × Bme280Drv).1 ≠ Reading.literal text) ∧
    (∀ text : String, text ≠ "none" →
      (readValue2 s : Reading K × Bme280Drv).1 ≠ Reading.literal text) := by
  refine ⟨?_, ?_, ?_, ?_, ?_, ?_, ?_, ?_⟩
  · intro h i
    rw [getValueAtIndex_inactive pow s i h]; rfl
  · intro i hi
    rw [getValueAtIndex_ge pow s i hi]; rfl
  · intro ha hraw
    rw [(getValueAtIndex_active pow s ha).1, readValue0_active pow s ha, hraw]
    norm_num
  · intro ha hraw
    rw [(getValueAtIndex_active pow s ha).2.2, readValue2_active s ha, hraw]
    norm_num
  · intro text hn hz h
    rcases readValue0_literal pow s text h with h' | h'
    · exact hn h'
    · exact hz h'
  · intro ha hraw hv text hn h
    exact hn (readValue0_compensated_literal pow s ha hraw hv text h)
  · intro text hn h
    exact hn (readValue1_literal s text h)
  · intro text hn h
    exact hn (readValue2_literal s text h)

/-- Witness for C3: an inactive device, an index of 7, a disabled pressure
channel, a disabled humidity channel, and the literal "no data" on the
reference device. -/
theorem sentinel_literal_witness :
    (getValueAtIndex powQ inactiveDevice 1).map Prod.fst = some (Reading.literal "none") ∧
    (getValueAtIndex powQ (refDevice refRegs 0) 7).map Prod.fst =
      some (Reading.literal "none") ∧
    (getValueAtIndex powQ pressureOffDevice 0).map Prod.fst = some (Reading.literal "none") ∧
    (getValueAtIndex powQ humidityOffDevice 2).map Prod.fst = some (Reading.literal "none") ∧
    (readValue0 powQ inactiveDevice).1 ≠ Reading.literal "no data" ∧
    (readValue0 powQ (refDevice refRegs 0)).1 ≠ Reading.literal "no data" ∧
    (readValue1 (refDevice refRegs 0) : Reading ℚ × Bme280Drv).1 ≠ Reading.literal "no data" ∧
    (readValue2 humidityOffDevice : Reading ℚ × Bme280Drv).1 ≠ Reading.literal "no data" :=
  ⟨(sentinel_literal powQ inactiveDevice).1 rfl 1,
    (sentinel_literal powQ (refDevice refRegs 0)).2.1 7 (by decide),
    (sentinel_literal powQ pressureOffDevice).2.2.1 rfl (by decide),
    (sentinel_literal powQ humidityOffDevice).2.2.2.1 rfl (by decide),
    (sentinel_literal powQ inactiveDevice).2.2.2.2.1 "no data" (by decide) (by decide),
    (sentinel_literal powQ (refDevice refRegs 0)).2.2.2.2.2.1 rfl (by decide) (by decide)
      "no data" (by decide),
    (sentinel_literal powQ (refDevice refRegs 0)).2.2.2.2.2.2.1 "no data" (by decide),
    (sentinel_literal powQ humidityOffDevice).2.2.2.2.2.2.2 "no data" (by decide)⟩

/-- The pressure reading when the channel is enabled and the divisor is not zero. -/
theorem readValue0_compensated {K : Type} [LinearOrderedField K] (pow : K → K → K)
    (s : Bme280Drv) (ha : s.active = true) (hraw : rawPressure24 s ≠ 0x800000)
    (hv : pressureVar1 (calcTFine s).t_fine s.bme280_calib ≠ 0) :
    readValue0 pow s =
      (if adjustedPressure pow s < 850 ∨ adjustedPressure pow s > 1090
        then Reading.literal "none"
        else Reading.formatted (adjustedPressure pow s) 2, afterReadValue0 s) := by
  have hraw' : ¬ ((rawPressure24 s : Nat) : Int) = 0x800000 := by
    intro h; exact hraw (by exact_mod_cast h)
  rw [readValue0_active pow s ha, if_neg hraw', if_neg hv]

/-- The pressure reading when the divisor is zero. -/
theorem readValue0_zero_divisor {K : Type} [LinearOrderedField K] (pow : K → K → K)
    (s : Bme280Drv) (ha : s.active = true) (hraw : rawPressure24 s ≠ 0x800000)
    (hv : pressureVar1 (calcTFine s).t_fine s.bme280_calib = 0) :
    readValue0 pow s = (Reading.literal "0", afterReadValue0 s) := by
  have hraw' : ¬ ((rawPressure24 s : Nat) : Int) = 0x800000 := by
    intro h; exact hraw (by exact_mod_cast h)
  rw [readValue0_active pow s ha, if_neg hraw', if_pos hv]

/-- The divisor is zero whenever `dig_P1` is. -/
theorem pressureVar1_of_P1_zero (t_fine : Int) (c : bme280_calib_data) (h : c.dig_P1 = 0) :
    pressureVar1 t_fine c = 0 := by
  simp only [pressureVar1, h, mul_zero]
  decide

/-- C11 (the failing case): the raw pressure bytes 0xFF 0xFF 0xF0 with the
calibration and temperature data of the reference vector meet the conditions
of the claim (active device, raw code other than 0x800000, non-zero first
intermediate term), and the integer pipeline of `readValue0` yields the Q24.8
value −1697504, so that `p/256` is −6630 Pa. The value handed to
`seaLevelPressure` is −66.3 hPa and the base `pressure_mb - 0.3` of its inner
power is −66.6: negative, under the exponent 0.190284, which is not an
integer (it lies between 0 and 1). -/
theorem pressure_range_negative_base :
    saturatedPressureDevice.active = true ∧
    saturatedPressureDevice.stationAltitude = 0 ∧
    rawPressure24 saturatedPressureDevice = 0xFFFFF0 ∧
    rawPressure24 saturatedPressureDevice ≠ 0x800000 ∧
    pressureVar1 (calcTFine saturatedPressureDevice).t_fine
      saturatedPressureDevice.bme280_calib ≠ 0 ∧
    stationPressureQ24_8 saturatedPressureDevice = -1697504 ∧
    Int.tdiv (stationPressureQ24_8 saturatedPressureDevice) 256 = -6630 ∧
    ((Int.tdiv (stationPressureQ24_8 saturatedPressureDevice) 256 : Int) : ℚ) / 100 - 3 / 10 =
      -333 / 5 ∧
    ((Int.tdiv (stationPressureQ24_8 saturatedPressureDevice) 256 : Int) : ℚ) / 100 - 3 / 10 <
      0 ∧
    ((0 : ℚ) < 190284 / 1000000 ∧ (190284 : ℚ) / 1000000 < 1) := by
  have hp : stationPressureQ24_8 saturatedPressureDevice = -1697504 := by decide
  have hd : Int.tdiv (stationPressureQ24_8 saturatedPressureDevice) 256 = -6630 := by
    rw [hp]; decide
  refine ⟨rfl, rfl, by decide, by decide, by decide, hp, hd, ?_, ?_, ?_⟩
  · rw [hd]; norm_num
  · rw [hd]; norm_num
  · norm_num

/-- C12 (as stated, refuted): with `dig_P1 = 0` the first intermediate term is
zero, yet for the raw pressure code 0x800000 `readValue0` returns the sentinel
string and not the literal "0": the sentinel test comes first. -/
theorem zero_divisor_counterexample :
    zeroP1OffDevice.bme280_calib.dig_P1 = 0 ∧
    pressureVar1 (calcTFine zeroP1OffDevice).t_fine zeroP1OffDevice.bme280_calib = 0 ∧
    (readValue0 powQ zeroP1OffDevice).1 = Reading.literal "none" ∧
    (readValue0 powQ zeroP1OffDevice).1 ≠ Reading.literal "0" := by
  have h : (readValue0 powQ zeroP1OffDevice).1 = Reading.literal "none" := by
    rw [readValue0_active powQ zeroP1OffDevice rfl]
    have : rawPressure24 zeroP1OffDevice = 0x800000 := by decide
    rw [this]; norm_num
  refine ⟨rfl, by decide, h, ?_⟩
  rw [h]; intro h'
  injection h' with h'
  exact absurd h' (by decide)

/-- C12 (amended): on an active device whose raw pressure code is not the
sentinel 0x800000, whenever the first intermediate term
`var1 = (((2^47 + var1') · dig_P1) >> 33)` is zero — in particular for every
calibration with `dig_P1 = 0`, whatever `t_fine` is — `readValue0` returns the
literal "0" (not the sentinel string); a reading other than "0" is produced
only with a non-zero `var1`, so the division never has a zero divisor. -/
theorem zero_divisor_literal {K : Type} [LinearOrderedField K] (pow : K → K → K)
    (s : Bme280Drv) (ha : s.active = true) (hraw : rawPressure24 s ≠ 0x800000) :
    (pressureVar1 (calcTFine s).t_fine s.bme280_calib = 0 →
      readValue0 pow s = (Reading.literal "0", afterReadValue0 s)) ∧
    (s.bme280_calib.dig_P1 = 0 →
      readValue0 pow s = (Reading.literal "0", afterReadValue0 s)) ∧
    (∀ t : Int, s.bme280_calib.dig_P1 = 0 → pressureVar1 t s.bme280_calib = 0) ∧
    ((readValue0 pow s).1 ≠ Reading.literal "0" →
      pressureVar1 (calcTFine s).t_fine s.bme280_calib ≠ 0) ∧
    (pressureVar1 (calcTFine s).t_fine s.bme280_calib ≠ 0 →
      readValue0 pow s =
        (if adjustedPressure pow s < 850 ∨ adjustedPressure pow s > 1090
          then Reading.literal "none"
          else Reading.formatted (adjustedPressure pow s) 2, afterReadValue0 s)) := by
  refine ⟨readValue0_zero_divisor pow s ha hraw, ?_, ?_, ?_,
    readValue0_compensated pow s ha hraw⟩
  · intro h
    exact readValue0_zero_divisor pow s ha hraw (pressureVar1_of_P1_zero _ _ h)
  · intro t h
    exact pressureVar1_of_P1_zero t _ h
  · intro h hv
    exact h (by rw [readValue0_zero_divisor pow s ha hraw hv])

/-- Witness for C12: the reference data with `dig_P1 = 0`. -/
theorem zero_divisor_literal_witness :
    readValue0 powQ zeroP1Device = (Reading.literal "0", afterReadValue0 zeroP1Device) :=
  (zero_divisor_literal powQ zeroP1Device rfl (by decide)).2.1 rfl

/-- The clamp of `readValue2` lands in [0, 419430400]. -/
theorem humidityClamp_bounds (x : Int) :
    0 ≤ humidityClamp x ∧ humidityClamp x ≤ 419430400 := by
  simp only [humidityClamp]
  split_ifs <;> omega

theorem humidityClamp_neg (x : Int) (h : x < 0) : humidityClamp x = 0 := by
  simp only [humidityClamp]
  split_ifs <;> omega

theorem humidityClamp_high (x : Int) (h : 419430400 < x) : humidityClamp x = 419430400 := by
  simp only [humidityClamp]
  split_ifs <;> omega

/-- The humidity reading when the channel is enabled. -/
theorem readValue2_enabled {K : Type} [LinearOrderedField K] (s : Bme280Drv)
    (ha : s.active = true) (hraw : rawHumidity16 s ≠ 0x8000) :
    (readValue2 s : Reading K × Bme280Drv) =
      (Reading.formatted
        (((humidityClamp (humidityPreClamp s) >>> (12 : Nat) : Int) : K) / 1024) 1,
        afterReadValue2 s) := by
  have hraw' : ¬ ((rawHumidity16 s : Nat) : Int) = 0x8000 := by
    intro h; exact hraw (by exact_mod_cast h)
  rw [readValue2_active s ha, if_neg hraw', shr_eq_div]
  norm_num [humidityPreClamp]

/-- C13: for every `t_fine`, every raw humidity code and every humidity
calibration (the intermediate being computed in wrapping signed 32-bit
arithmetic), the clamped intermediate `v_x1_u32r` lies in [0, 419430400],
`v_x1_u32r >> 12` lies in [0, 102400] and the humidity value
`(v_x1_u32r >> 12)/1024` lies in [0, 100]; on an active device with a raw
code other than 0x8000 that value is the reading handed to the formatter
(one place), a negative intermediate before the clamp gives exactly 0 and one
above 419430400 gives exactly 100. -/
theorem humidity_clamped {K : Type} [LinearOrderedField K] (s : Bme280Drv)
    (ha : s.active = true) (hraw : rawHumidity16 s ≠ 0x8000) :
    (∀ (t_fine adc_H : Int) (c : bme280_calib_data),
      0 ≤ humidityClamp (humidityRaw t_fine adc_H c) ∧
      humidityClamp (humidityRaw t_fine adc_H c) ≤ 419430400 ∧
      0 ≤ humidityClamp (humidityRaw t_fine adc_H c) >>> (12 : Nat) ∧
      humidityClamp (humidityRaw t_fine adc_H c) >>> (12 : Nat) ≤ 102400 ∧
      (0 : K) ≤ ((humidityClamp (humidityRaw t_fine adc_H c) >>> (12 : Nat) : Int) : K) / 1024 ∧
      ((humidityClamp (humidityRaw t_fine adc_H c) >>> (12 : Nat) : Int) : K) / 1024 ≤ 100) ∧
    (readValue2 s : Reading K × Bme280Drv) =
      (Reading.formatted
        (((humidityClamp (humidityPreClamp s) >>> (12 : Nat) : Int) : K) / 1024) 1,
        afterReadValue2 s) ∧
    (humidityPreClamp s < 0 →
      (readValue2 s : Reading K × Bme280Drv) = (Reading.formatted 0 1, afterReadValue2 s)) ∧
    (419430400 < humidityPreClamp s →
      (readValue2 s : Reading K × Bme280Drv) =
        (Reading.formatted 100 1, afterReadValue2 s)) := by
  refine ⟨?_, readValue2_enabled s ha hraw, ?_, ?_⟩
  · intro t adc c
    have hb := humidityClamp_bounds (humidityRaw t adc c)
    generalize humidityClamp (humidityRaw t adc c) = v at hb
    have h1 : 0 ≤ v >>> (12 : Nat) := by rw [shr_eq_div]; norm_num; omega
    have h2 : v >>> (12 : Nat) ≤ 102400 := by rw [shr_eq_div]; norm_num; omega
    refine ⟨hb.1, hb.2, h1, h2, ?_, ?_⟩
    · have : (0 : K) ≤ ((v >>> (12 : Nat) : Int) : K) := by exact_mod_cast h1
      positivity
    · have : ((v >>> (12 : Nat) : Int) : K) ≤ 102400 := by exact_mod_cast h2
      rw [div_le_iff₀ (by norm_num)]
      linarith
  · intro h
    rw [readValue2_enabled s ha hraw, humidityClamp_neg _ h]
    norm_num
  · intro h
    rw [readValue2_enabled s ha hraw, humidityClamp_high _ h]
    have : (419430400 : Int) >>> (12 : Nat) = 102400 := by decide
    rw [this]
    norm_num

/-- Witness for C13: raw humidity bytes 0x00 0x00 (negative before the clamp)
and 0xFF 0xFF (above 419430400 before the clamp). -/
theorem humidity_clamped_witness :
    (readValue2 dryDevice : Reading ℚ × Bme280Drv) =
      (Reading.formatted 0 1, afterReadValue2 dryDevice) ∧
    (readValue2 wetDevice : Reading ℚ × Bme280Drv) =
      (Reading.formatted 100 1, afterReadValue2 wetDevice) :=
  ⟨(humidity_clamped dryDevice rfl (by decide)).2.2.1 (by decide),
    (humidity_clamped wetDevice rfl (by decide)).2.2.2 (by decide)⟩

theorem readRegister_regs (d : I2CDevice) (a : Nat) : (d.readRegister a).2.regs = d.regs := by
  unfold I2CDevice.readRegister
  split <;> rfl

theorem readRegister_fst (d : I2CDevice) (a : Nat) (ha : a ≠ BME280_REGISTER_STATUS) :
    (d.readRegister a).1 = toU8 (d.regs a) := by
  simp only [I2CDevice.readRegister, if_neg ha]

theorem read16_regs (d : I2CDevice) (a : Nat) : (read16 d a).2.regs = d.regs := by
  simp only [read16, readRegister_regs]

/-- Swapping the bytes of a 16-bit value `h·256 + l`. -/
theorem swap16 (h l : Nat) (hh : h < 256) (hl : l < 256) :
    toU16 (((h * 256 + l) >>> (8 : Nat)) ||| ((h * 256 + l) <<< 8)) = h + 256 * l := by
  have e1 : (h * 256 + l) >>> (8 : Nat) = h := by
    rw [Nat.shiftRight_eq_div_pow]; norm_num; omega
  have e2 : (h * 256 + l) <<< 8 = 2 ^ 8 * (h * 256 + l) := by
    rw [Nat.shiftLeft_eq, Nat.mul_comm]
  rw [e1, e2, Nat.lor_comm, ← Nat.mul_add_lt_is_or (by simpa using hh)]
  unfold toU16; omega

/-- The value of a little-endian 16-bit read of two calibration registers. -/
theorem read16_LE_fst (d : I2CDevice) (a : Nat) (ha : a ≠ BME280_REGISTER_STATUS)
    (ha1 : a + 1 ≠ BME280_REGISTER_STATUS) :
    (read16_LE d a).1 = toU8 (d.regs a) + 256 * toU8 (d.regs (a + 1)) := by
  simp only [read16_LE]
  rw [read16_fst d a ha ha1]
  exact swap16 _ _ (toU8_lt _) (toU8_lt _)

theorem read16_LE_regs (d : I2CDevice) (a : Nat) : (read16_LE d a).2.regs = d.regs := by
  simp only [read16_LE, read16_regs]

theorem readS16_LE_regs (d : I2CDevice) (a : Nat) : (readS16_LE d a).2.regs = d.regs := by
  simp only [readS16_LE, read16_LE_regs]

theorem toS16_eq_signed16 (x : Nat) (h : x < 65536) : toS16 x = signed16 x := by
  unfold toS16 signed16
  rw [Nat.mod_eq_of_lt h]

theorem toS8_eq_signed8 (x : Nat) (h : x < 256) : toS8 x = signed8 x := by
  unfold toS8 signed8
  rw [Nat.mod_eq_of_lt h]

/-- The value of a little-endian signed 16-bit read of two calibration registers. -/
theorem readS16_LE_fst (d : I2CDevice) (a : Nat) (ha : a ≠ BME280_REGISTER_STATUS)
    (ha1 : a + 1 ≠ BME280_REGISTER_STATUS) :
    (readS16_LE d a).1 = signed16 (toU8 (d.regs a) + 256 * toU8 (d.regs (a + 1))) := by
  simp only [readS16_LE]
  rw [read16_LE_fst d a ha ha1]
  apply toS16_eq_signed16
  have := toU8_lt (d.regs a)
  have := toU8_lt (d.regs (a + 1))
  omega


theorem toU8_idem (x : Nat) : toU8 (toU8 x) = toU8 x := by
  unfold toU8; omega

/-- The packing of `dig_H4`: a byte shifted by 4 joined with a low nibble. -/
theorem pack_H4 (a b : Nat) (ha : a < 256) :
    toS16 ((a <<< 4) ||| (b &&& 0xF)) = ((16 * a + b % 16 : Nat) : Int) := by
  have hb : b &&& 0xF = b % 16 := Nat.and_pow_two_sub_one_eq_mod b 4
  have hlt : b % 16 < 2 ^ 4 := by norm_num; omega
  rw [hb, Nat.shiftLeft_eq, Nat.mul_comm a (2 ^ 4), ← Nat.mul_add_lt_is_or hlt]
  have : 2 ^ 4 * a + b % 16 < 32768 := by norm_num; omega
  unfold toS16
  rw [Nat.mod_eq_of_lt (by omega), if_pos this]

/-- The packing of `dig_H5`: a byte shifted by 4 joined with a high nibble. -/
theorem pack_H5 (a b : Nat) (ha : a < 256) (hb : b < 256) :
    toS16 ((a <<< 4) ||| (b >>> (4 : Nat))) = ((16 * a + b / 16 : Nat) : Int) := by
  have hs : b >>> (4 : Nat) = b / 16 := by rw [Nat.shiftRight_eq_div_pow]
  have hlt : b / 16 < 2 ^ 4 := by norm_num; omega
  rw [hs, Nat.shiftLeft_eq, Nat.mul_comm a (2 ^ 4), ← Nat.mul_add_lt_is_or hlt]
  have : 2 ^ 4 * a + b / 16 < 32768 := by norm_num; omega
  unfold toS16
  rw [Nat.mod_eq_of_lt (by omega), if_pos this]

/-- The calibration that `readCoefficients` stores, field by field, in terms
of the register map. -/
theorem readCoefficients_calib (s : Bme280Drv) :
    (readCoefficients s).bme280_calib =
      { dig_T1 := (pairLE s 0x88 : Int)
        dig_T2 := signed16 (pairLE s 0x8A)
        dig_T3 := signed16 (pairLE s 0x8C)
        dig_P1 := (pairLE s 0x8E : Int)
        dig_P2 := signed16 (pairLE s 0x90)
        dig_P3 := signed16 (pairLE s 0x92)
        dig_P4 := signed16 (pairLE s 0x94)
        dig_P5 := signed16 (pairLE s 0x96)
        dig_P6 := signed16 (pairLE s 0x98)
        dig_P7 := signed16 (pairLE s 0x9A)
        dig_P8 := signed16 (pairLE s 0x9C)
        dig_P9 := signed16 (pairLE s 0x9E)
        dig_H1 := (reg s 0xA1 : Int)
        dig_H2 := signed16 (pairLE s 0xE1)
        dig_H3 := (reg s 0xE3 : Int)
        dig_H4 := ((16 * reg s 0xE4 + reg s 0xE5 % 16 : Nat) : Int)
        dig_H5 := ((16 * reg s 0xE6 + reg s 0xE5 / 16 : Nat) : Int)
        dig_H6 := signed8 (reg s 0xE7) } := by
  have n : ∀ a : Nat, a ≠ 0xF3 → a ≠ BME280_REGISTER_STATUS := fun a h => h
  simp only [readCoefficients, BME280_REGISTER_DIG_T1, BME280_REGISTER_DIG_T2,
    BME280_REGISTER_DIG_T3, BME280_REGISTER_DIG_P1, BME280_REGISTER_DIG_P2,
    BME280_REGISTER_DIG_P3, BME280_REGISTER_DIG_P4, BME280_REGISTER_DIG_P5,
    BME280_REGISTER_DIG_P6, BME280_REGISTER_DIG_P7, BME280_REGISTER_DIG_P8,
    BME280_REGISTER_DIG_P9, BME280_REGISTER_DIG_H1, BME280_REGISTER_DIG_H2,
    BME280_REGISTER_DIG_H3, BME280_REGISTER_DIG_H4, BME280_REGISTER_DIG_H5,
    BME280_REGISTER_DIG_H6]
  rw [read16_LE_fst _ 0x88 (n _ (by decide)) (n _ (by decide)),
    readS16_LE_fst _ 0x8A (n _ (by decide)) (n _ (by decide)),
    readS16_LE_fst _ 0x8C (n _ (by decide)) (n _ (by decide)),
    read16_LE_fst _ 0x8E (n _ (by decide)) (n _ (by decide)),
    readS16_LE_fst _ 0x90 (n _ (by decide)) (n _ (by decide)),
    readS16_LE_fst _ 0x92 (n _ (by decide)) (n _ (by decide)),
    readS16_LE_fst _ 0x94 (n _ (by decide)) (n _ (by decide)),
    readS16_LE_fst _ 0x96 (n _ (by decide)) (n _ (by decide)),
    readS16_LE_fst _ 0x98 (n _ (by decide)) (n _ (by decide)),
    readS16_LE_fst _ 0x9A (n _ (by decide)) (n _ (by decide)),
    readS16_LE_fst _ 0x9C (n _ (by decide)) (n _ (by decide)),
    readS16_LE_fst _ 0x9E (n _ (by decide)) (n _ (by decide)),
    readS16_LE_fst _ 0xE1 (n _ (by decide)) (n _ (by decide)),
    readRegister_fst _ 0xA1 (n _ (by decide)), readRegister_fst _ 0xE3 (n _ (by decide)),
    readRegister_fst _ 0xE4 (n _ (by decide)), readRegister_fst _ (0xE4 + 1) (n _ (by decide)),
    readRegister_fst _ (0xE5 + 1) (n _ (by decide)), readRegister_fst _ 0xE5 (n _ (by decide)),
    readRegister_fst _ 0xE7 (n _ (by decide)),
    pack_H4 _ _ (toU8_lt _), pack_H5 _ _ (toU8_lt _) (toU8_lt _),
    toS8_eq_signed8 _ (toU8_lt _)]
  simp only [readRegister_regs, read16_LE_regs, readS16_LE_regs, toU8_idem, reg, pairLE]

/-- C14: for every register map, `readCoefficients` parses the T/P block as
little-endian 16-bit pairs: `dig_T1` (0x88) and `dig_P1` (0x8E) are
`reg[a] + 256·reg[a+1]` as unsigned values, `dig_T2`, `dig_T3`,
`dig_P2..dig_P9` (0x8A, 0x8C, 0x90..0x9E) and `dig_H2` (0xE1) are the
two's-complement signed 16-bit reading of `reg[a] + 256·reg[a+1]`,
`dig_H1 = reg[0xA1]` and `dig_H3 = reg[0xE3]` unsigned, `dig_H6` the signed
8-bit reading of `reg[0xE7]`; bytes 0x70 0x6B give 27504 and bytes 0x18 0xFC
give −1000, as on the chip holding the reference calibration. -/
theorem calibration_little_endian (s : Bme280Drv) :
    (readCoefficients s).bme280_calib.dig_T1 = ((reg s 0x88 + 256 * reg s 0x89 : Nat) : Int) ∧
    (readCoefficients s).bme280_calib.dig_P1 = ((reg s 0x8E + 256 * reg s 0x8F : Nat) : Int) ∧
    (readCoefficients s).bme280_calib.dig_T2 = signed16 (reg s 0x8A + 256 * reg s 0x8B) ∧
    (readCoefficients s).bme280_calib.dig_T3 = signed16 (reg s 0x8C + 256 * reg s 0x8D) ∧
    (readCoefficients s).bme280_calib.dig_P2 = signed16 (reg s 0x90 + 256 * reg s 0x91) ∧
    (readCoefficients s).bme280_calib.dig_P3 = signed16 (reg s 0x92 + 256 * reg s 0x93) ∧
    (readCoefficients s).bme280_calib.dig_P4 = signed16 (reg s 0x94 + 256 * reg s 0x95) ∧
    (readCoefficients s).bme280_calib.dig_P5 = signed16 (reg s 0x96 + 256 * reg s 0x97) ∧
    (readCoefficients s).bme280_calib.dig_P6 = signed16 (reg s 0x98 + 256 * reg s 0x99) ∧
    (readCoefficients s).bme280_calib.dig_P7 = signed16 (reg s 0x9A + 256 * reg s 0x9B) ∧
    (readCoefficients s).bme280_calib.dig_P8 = signed16 (reg s 0x9C + 256 * reg s 0x9D) ∧
    (readCoefficients s).bme280_calib.dig_P9 = signed16 (reg s 0x9E + 256 * reg s 0x9F) ∧
    (readCoefficients s).bme280_calib.dig_H2 = signed16 (reg s 0xE1 + 256 * reg s 0xE2) ∧
    (readCoefficients s).bme280_calib.dig_H1 = (reg s 0xA1 : Int) ∧
    (readCoefficients s).bme280_calib.dig_H3 = (reg s 0xE3 : Int) ∧
    (readCoefficients s).bme280_calib.dig_H6 = signed8 (reg s 0xE7) ∧
    ((0x70 + 256 * 0x6B : Nat) : Int) = 27504 ∧
    signed16 (0x18 + 256 * 0xFC) = -1000 ∧
    (readCoefficients (chipDevice (fun _ => 0))).bme280_calib.dig_T1 = 27504 ∧
    (readCoefficients (chipDevice (fun _ => 0))).bme280_calib.dig_T3 = -1000 := by
  rw [readCoefficients_calib]
  refine ⟨rfl, rfl, rfl, rfl, rfl, rfl, rfl, rfl, rfl, rfl, rfl, rfl, rfl, rfl, rfl, rfl,
    by decide, by decide, ?_, ?_⟩
  · rw [readCoefficients_calib]; decide
  · rw [readCoefficients_calib]; decide

/-- C15: for every register map the two packed humidity coefficients are
`dig_H4 = 16·reg[0xE4] + (reg[0xE5] mod 16)` and
`dig_H5 = 16·reg[0xE6] + (reg[0xE5] div 16)`: the low nibble of the shared
register 0xE5 goes only to `dig_H4`, its high nibble only to `dig_H5`, both
values lie in [0, 4095], and the three bytes are recovered from the pair. -/
theorem packed_humidity_coefficients (s : Bme280Drv) :
    (readCoefficients s).bme280_calib.dig_H4 =
      ((16 * reg s 0xE4 + reg s 0xE5 % 16 : Nat) : Int) ∧
    (readCoefficients s).bme280_calib.dig_H5 =
      ((16 * reg s 0xE6 + reg s 0xE5 / 16 : Nat) : Int) ∧
    (0 ≤ (readCoefficients s).bme280_calib.dig_H4 ∧
      (readCoefficients s).bme280_calib.dig_H4 ≤ 4095) ∧
    (0 ≤ (readCoefficients s).bme280_calib.dig_H5 ∧
      (readCoefficients s).bme280_calib.dig_H5 ≤ 4095) ∧
    (readCoefficients s).bme280_calib.dig_H4 % 16 = ((reg s 0xE5 % 16 : Nat) : Int) ∧
    (readCoefficients s).bme280_calib.dig_H5 % 16 = ((reg s 0xE5 / 16 : Nat) : Int) ∧
    (reg s 0xE4 : Int) = (readCoefficients s).bme280_calib.dig_H4 / 16 ∧
    (reg s 0xE6 : Int) = (readCoefficients s).bme280_calib.dig_H5 / 16 ∧
    (reg s 0xE5 : Int) = (readCoefficients s).bme280_calib.dig_H4 % 16 +
      16 * ((readCoefficients s).bme280_calib.dig_H5 % 16) := by
  have h4 := toU8_lt (s.bus.regs 0xE4)
  have h5 := toU8_lt (s.bus.regs 0xE5)
  have h6 := toU8_lt (s.bus.regs 0xE6)
  rw [readCoefficients_calib]
  simp only [reg] at *
  refine ⟨trivial, trivial, ⟨?_, ?_⟩, ⟨?_, ?_⟩, ?_, ?_, ?_, ?_, ?_⟩ <;> omega

/-- What `setSampling` does to the bus: three writes, nothing else. -/
theorem setSampling_bus (s : Bme280Drv) (mode : sensor_mode)
    (tempSampling pressSampling humSampling : sensor_sampling) (filter : sensor_filter)
    (duration : standby_duration) :
    (setSampling s mode tempSampling pressSampling humSampling filter duration).bus =
      { s.bus with
        trace := s.bus.trace ++ (samplingWrites
          (setSampling s mode tempSampling pressSampling humSampling filter duration)) } := by
  simp [setSampling, samplingWrites, I2CDevice.writeRegister]

theorem writesOf_append (xs ys : List BusOp) : writesOf (xs ++ ys) = writesOf xs ++ writesOf ys := by
  simp [writesOf, List.filter_append]

/-- C16: every call of `setSampling`, whatever its arguments, appends exactly
three operations to the bus trace, all writes: to ctrl_hum (0xF2), then to
config (0xF5), then to ctrl_meas (0xF4); the write to ctrl_hum precedes the
write to ctrl_meas, and the last write of the call is the one to ctrl_meas. -/
theorem setSampling_three_writes (s : Bme280Drv) (mode : sensor_mode)
    (tempSampling pressSampling humSampling : sensor_sampling) (filter : sensor_filter)
    (duration : standby_duration) :
    (setSampling s mode tempSampling pressSampling humSampling filter duration).bus.trace =
      s.bus.trace ++
        [BusOp.writeRegister 0xF2 (toU8 (setSampling s mode tempSampling pressSampling
            humSampling filter duration).humReg.get),
         BusOp.writeRegister 0xF5 (toU8 (setSampling s mode tempSampling pressSampling
            humSampling filter duration).configReg.get),
         BusOp.writeRegister 0xF4 (toU8 (setSampling s mode tempSampling pressSampling
            humSampling filter duration).measReg.get)] ∧
    writesOf (setSampling s mode tempSampling pressSampling humSampling filter
        duration).bus.trace =
      writesOf s.bus.trace ++
        [BusOp.writeRegister 0xF2 (toU8 (setSampling s mode tempSampling pressSampling
            humSampling filter duration).humReg.get),
         BusOp.writeRegister 0xF5 (toU8 (setSampling s mode tempSampling pressSampling
            humSampling filter duration).configReg.get),
         BusOp.writeRegister 0xF4 (toU8 (setSampling s mode tempSampling pressSampling
            humSampling filter duration).measReg.get)] ∧
    (setSampling s mode tempSampling pressSampling humSampling filter duration).bus.trace.getLast? =
      some (BusOp.writeRegister 0xF4 (toU8 (setSampling s mode tempSampling pressSampling
        humSampling filter duration).measReg.get)) ∧
    (setSampling s mode tempSampling pressSampling humSampling filter
        duration).bus.trace.length = s.bus.trace.length + 3 := by
  rw [setSampling_bus]
  refine ⟨rfl, ?_, ?_, ?_⟩
  · simp only [writesOf_append]
    rfl
  · simp [samplingWrites, BME280_REGISTER_CONTROL]
  · simp [samplingWrites]


/-- The bytes that the default call `setSampling()` writes. -/
theorem setSamplingDefault_bus (s : Bme280Drv) :
    (setSamplingDefault s).bus = { s.bus with
      trace := s.bus.trace ++ [BusOp.writeRegister 0xF2 0x05, BusOp.writeRegister 0xF5 0x00,
        BusOp.writeRegister 0xF4 0xAB] } := by
  have h : samplingWrites (setSamplingDefault s) =
      [BusOp.writeRegister 0xF2 0x05, BusOp.writeRegister 0xF5 0x00,
        BusOp.writeRegister 0xF4 0xAB] := by
    simp [samplingWrites, setSamplingDefault, setSampling, ctrl_hum.get, config.get,
      ctrl_meas.get, sensor_sampling.code, sensor_mode.code, sensor_filter.code,
      standby_duration.code, toU8, BME280_REGISTER_CONTROLHUMID, BME280_REGISTER_CONFIG,
      BME280_REGISTER_CONTROL]
  rw [← h]
  unfold setSamplingDefault
  rw [setSampling_bus]

/-- C17 (the failing case): the default configuration written by the set-up is
ctrl_hum = 0x05, config = 0x00 and ctrl_meas = 0xAB, not 0xB7: `ctrl_meas::get`
shifts `osrs_p` by 3, so the hardware reads temperature oversampling 101
(16x) from bits 7..5, pressure oversampling 010 (2x) from bits 4..2 and mode
11 (normal) from bits 1..0. -/
theorem default_ctrl_meas_byte (s : Bme280Drv) :
    (setSamplingDefault s).bus.trace = s.bus.trace ++
      [BusOp.writeRegister 0xF2 0x05, BusOp.writeRegister 0xF5 0x00,
        BusOp.writeRegister 0xF4 0xAB] ∧
    (0xAB : Nat) ≠ 0xB7 ∧
    bitField 0xAB 5 3 = sensor_sampling.SAMPLING_X16.code ∧
    bitField 0xAB 2 3 = sensor_sampling.SAMPLING_X2.code ∧
    bitField 0xAB 2 3 ≠ sensor_sampling.SAMPLING_X16.code ∧
    bitField 0xAB 0 2 = sensor_mode.MODE_NORMAL.code ∧
    bitField 0x05 0 3 = sensor_sampling.SAMPLING_X16.code ∧
    bitField 0x00 5 3 = standby_duration.STANDBY_MS_0_5.code ∧
    bitField 0x00 2 3 = sensor_filter.FILTER_OFF.code ∧
    (initializeDrv 1 (chipDevice (fun _ => 0))).map
        (fun r => (r.1, writesOf r.2.bus.trace)) =
      some (true, [BusOp.writeRegister 0xE0 0xB6, BusOp.writeRegister 0xF2 0x05,
        BusOp.writeRegister 0xF5 0x00, BusOp.writeRegister 0xF4 0xAB]) := by
  rw [setSamplingDefault_bus]
  refine ⟨rfl, by decide, by decide, by decide, by decide, by decide, by decide, by decide,
    by decide, by decide⟩

/-- One status poll: the flag is bit 0 of the next status value. -/
theorem isReadingCalibration_spec (s : Bme280Drv) :
    isReadingCalibration s =
      (toU8 (s.bus.status s.bus.polls) % 2 == 1,
        { s with bus := { s.bus with
            polls := s.bus.polls + 1
            trace := s.bus.trace ++ [BusOp.readRegister BME280_REGISTER_STATUS] } }) := by
  simp only [isReadingCalibration, I2CDevice.readRegister, if_true, toU8_idem]
  congr 1
  have h1 : (1 : Nat) <<< 0 = 1 := rfl
  rw [h1, Nat.and_one_is_mod]
  rcases Nat.mod_two_eq_zero_or_one (toU8 (s.bus.status s.bus.polls)) with h | h <;>
    simp [h]

/-- The calibration wait when status bit 0 is set on the next `k` status reads
and clear on the one after: it ends after `k + 1` reads, given that much fuel. -/
theorem waitCalibration_spec (k : Nat) : ∀ (fuel : Nat) (s : Bme280Drv), k < fuel →
    (∀ i, i < k → toU8 (s.bus.status (s.bus.polls + i)) % 2 = 1) →
    toU8 (s.bus.status (s.bus.polls + k)) % 2 = 0 →
    waitCalibration fuel s = some { s with bus := { s.bus with
      polls := s.bus.polls + (k + 1)
      trace := s.bus.trace ++
        List.replicate (k + 1) (BusOp.readRegister BME280_REGISTER_STATUS) } } := by
  induction k with
  | zero =>
    intro fuel s hf _ hc
    obtain ⟨f, rfl⟩ : ∃ f, fuel = f + 1 := ⟨fuel - 1, by omega⟩
    simp only [waitCalibration, isReadingCalibration_spec]
    have : (toU8 (s.bus.status s.bus.polls) % 2 == 1) = false := by
      rw [Nat.add_zero] at hc; simp [hc]
    simp [this]
  | succ k ih =>
    intro fuel s hf hb hc
    obtain ⟨f, rfl⟩ : ∃ f, fuel = f + 1 := ⟨fuel - 1, by omega⟩
    simp only [waitCalibration, isReadingCalibration_spec]
    have h0 : (toU8 (s.bus.status s.bus.polls) % 2 == 1) = true := by
      have := hb 0 (by omega)
      rw [Nat.add_zero] at this; simp [this]
    simp only [h0, if_true]
    rw [ih f _ (by omega)]
    · simp [List.replicate_succ, Nat.add_assoc, Nat.add_comm 1]
    · intro i hi
      have := hb (i + 1) (by omega)
      simpa [Nat.add_assoc, Nat.add_comm 1] using this
    · simpa [Nat.add_assoc, Nat.add_comm 1] using hc

theorem I2CDevice.eq_of_fields (a b : I2CDevice) (h1 : a.regs = b.regs)
    (h2 : a.status = b.status) (h3 : a.polls = b.polls) (h4 : a.trace = b.trace) : a = b := by
  cases a; cases b; simp_all

theorem readRegister_status (d : I2CDevice) (a : Nat) :
    (d.readRegister a).2.status = d.status := by
  unfold I2CDevice.readRegister
  split <;> rfl

theorem readRegister_trace (d : I2CDevice) (a : Nat) :
    (d.readRegister a).2.trace = d.trace ++ [BusOp.readRegister a] := by
  unfold I2CDevice.readRegister
  split <;> rfl

theorem readRegister_polls (d : I2CDevice) (a : Nat) (ha : a ≠ BME280_REGISTER_STATUS) :
    (d.readRegister a).2.polls = d.polls := by
  simp only [I2CDevice.readRegister, if_neg ha]

theorem read16_LE_status (d : I2CDevice) (a : Nat) : (read16_LE d a).2.status = d.status := by
  simp only [read16_LE, read16, readRegister_status]

theorem read16_LE_trace (d : I2CDevice) (a : Nat) :
    (read16_LE d a).2.trace =
      d.trace ++ [BusOp.readRegister a, BusOp.readRegister (a + 1)] := by
  simp only [read16_LE, read16, readRegister_trace, List.append_assoc, List.cons_append,
    List.nil_append]

theorem read16_LE_polls (d : I2CDevice) (a : Nat) (ha : a ≠ BME280_REGISTER_STATUS)
    (ha1 : a + 1 ≠ BME280_REGISTER_STATUS) : (read16_LE d a).2.polls = d.polls := by
  simp only [read16_LE, read16, readRegister_polls _ _ ha, readRegister_polls _ _ ha1]

theorem readS16_LE_status (d : I2CDevice) (a : Nat) :
    (readS16_LE d a).2.status = d.status := by
  simp only [readS16_LE, read16_LE_status]

theorem readS16_LE_trace (d : I2CDevice) (a : Nat) :
    (readS16_LE d a).2.trace =
      d.trace ++ [BusOp.readRegister a, BusOp.readRegister (a + 1)] := by
  simp only [readS16_LE, read16_LE_trace]

theorem readS16_LE_polls (d : I2CDevice) (a : Nat) (ha : a ≠ BME280_REGISTER_STATUS)
    (ha1 : a + 1 ≠ BME280_REGISTER_STATUS) : (readS16_LE d a).2.polls = d.polls := by
  simp only [readS16_LE, read16_LE_polls _ _ ha ha1]

/-- What `readCoefficients` does to the bus: the calibration reads, nothing else. -/
theorem readCoefficients_bus (s : Bme280Drv) :
    (readCoefficients s).bus = { s.bus with trace := s.bus.trace ++ coeffReads } := by
  apply I2CDevice.eq_of_fields
  · simp only [readCoefficients, readRegister_regs, read16_LE_regs, readS16_LE_regs]
  · simp only [readCoefficients, readRegister_status, read16_LE_status, readS16_LE_status]
  · simp [readCoefficients, readRegister_polls, read16_LE_polls, readS16_LE_polls,
      BME280_REGISTER_DIG_T1, BME280_REGISTER_DIG_T2,
      BME280_REGISTER_DIG_T3, BME280_REGISTER_DIG_P1, BME280_REGISTER_DIG_P2,
      BME280_REGISTER_DIG_P3, BME280_REGISTER_DIG_P4, BME280_REGISTER_DIG_P5,
      BME280_REGISTER_DIG_P6, BME280_REGISTER_DIG_P7, BME280_REGISTER_DIG_P8,
      BME280_REGISTER_DIG_P9, BME280_REGISTER_DIG_H1, BME280_REGISTER_DIG_H2,
      BME280_REGISTER_DIG_H3, BME280_REGISTER_DIG_H4, BME280_REGISTER_DIG_H5,
      BME280_REGISTER_DIG_H6, BME280_REGISTER_STATUS]
  · simp only [readCoefficients, readRegister_trace, read16_LE_trace, readS16_LE_trace,
      List.append_assoc, List.cons_append, List.nil_append, coeffReads,
      BME280_REGISTER_DIG_T1, BME280_REGISTER_DIG_T2,
      BME280_REGISTER_DIG_T3, BME280_REGISTER_DIG_P1, BME280_REGISTER_DIG_P2,
      BME280_REGISTER_DIG_P3, BME280_REGISTER_DIG_P4, BME280_REGISTER_DIG_P5,
      BME280_REGISTER_DIG_P6, BME280_REGISTER_DIG_P7, BME280_REGISTER_DIG_P8,
      BME280_REGISTER_DIG_P9, BME280_REGISTER_DIG_H1, BME280_REGISTER_DIG_H2,
      BME280_REGISTER_DIG_H3, BME280_REGISTER_DIG_H4, BME280_REGISTER_DIG_H5,
      BME280_REGISTER_DIG_H6]

/-- The value `calcTFine` stores is the compensation of the raw temperature
code currently in the registers 0xFA..0xFC. -/
theorem calcTFine_t_fine (s : Bme280Drv) :
    (calcTFine s).t_fine = compensateT (rawTemp s) s.bme280_calib := by
  simp only [calcTFine, adc_T_eq, compensateT]

/-- A set-up that passes the identity check and whose calibration wait ends
after `k + 1` status reads returns true and leaves `afterSetup k s`. -/
theorem initializeDrv_success (fuel k : Nat) (s : Bme280Drv)
    (hid : toU8 (s.bus.regs BME280_REGISTER_CHIPID) = 0x60)
    (hbusy : ∀ i, i < k → toU8 (s.bus.status (s.bus.polls + i)) % 2 = 1)
    (hclear : toU8 (s.bus.status (s.bus.polls + k)) % 2 = 0) (hfuel : k < fuel) :
    initializeDrv fuel s = some (true, afterSetup k s) := by
  have hne : BME280_REGISTER_CHIPID ≠ BME280_REGISTER_STATUS := by decide
  have hid' : ¬ toU8 (s.bus.regs BME280_REGISTER_CHIPID) ≠ 0x60 := by simp [hid]
  simp only [initializeDrv, I2CDevice.readRegister, if_neg hne, if_neg hid',
    I2CDevice.writeRegister]
  have hw := waitCalibration_spec k fuel
    { s with bus := { s.bus with
        trace := s.bus.trace ++ [BusOp.readRegister BME280_REGISTER_CHIPID] ++
          [BusOp.writeRegister BME280_REGISTER_SOFTRESET (toU8 182)] } }
    hfuel hbusy hclear
  rw [hw]
  rfl

/-- The bus a successful set-up leaves. -/
theorem afterSetup_bus (k : Nat) (s : Bme280Drv) :
    (afterSetup k s).bus = { s.bus with
      polls := s.bus.polls + (k + 1)
      trace := s.bus.trace ++ setupTrace k defaultWrites } := by
  unfold afterSetup
  rw [calcTFine_frame]
  simp only [setSamplingDefault_bus, readCoefficients_bus, setupTrace, defaultWrites,
    List.append_assoc, List.cons_append, List.nil_append]
  rfl

theorem writesOf_replicate_read (n a : Nat) :
    writesOf (List.replicate n (BusOp.readRegister a)) = [] := by
  induction n with
  | zero => rfl
  | succ n ih => rw [List.replicate_succ]; simp [writesOf]

/-- The register writes of a successful set-up. -/
theorem writesOf_setupTrace (k : Nat) (ws : List BusOp) :
    writesOf (setupTrace k ws) =
      BusOp.writeRegister BME280_REGISTER_SOFTRESET 0xB6 :: writesOf ws := by
  simp only [setupTrace, writesOf_append, writesOf_replicate_read]
  have h1 : writesOf coeffReads = [] := by decide
  have h2 : writesOf [BusOp.readRegisters 3 BME280_REGISTER_TEMPDATA] = [] := by decide
  have h3 : writesOf [BusOp.readRegister BME280_REGISTER_CHIPID,
      BusOp.writeRegister BME280_REGISTER_SOFTRESET 0xB6] =
      [BusOp.writeRegister BME280_REGISTER_SOFTRESET 0xB6] := by decide
  rw [h1, h2, h3]
  simp

/-- The set-up never changes the `active` flag. -/
theorem waitCalibration_active : ∀ (fuel : Nat) (s s' : Bme280Drv),
    waitCalibration fuel s = some s' → s'.active = s.active := by
  intro fuel
  induction fuel with
  | zero => intro s s' h; simp [waitCalibration] at h
  | succ f ih =>
    intro s s' h
    simp only [waitCalibration] at h
    split at h
    · have := ih _ _ h
      exact this
    · injection h with h
      rw [← h]; rfl

theorem readCoefficients_active (s : Bme280Drv) : (readCoefficients s).active = s.active := by
  simp only [readCoefficients]

theorem calcTFine_active (s : Bme280Drv) : (calcTFine s).active = s.active := rfl

theorem setSamplingDefault_active (s : Bme280Drv) : (setSamplingDefault s).active = s.active :=
  rfl

theorem initializeDrv_active (fuel : Nat) (s : Bme280Drv) (r : Bool) (s' : Bme280Drv)
    (h : initializeDrv fuel s = some (r, s')) : s'.active = s.active := by
  simp only [initializeDrv] at h
  split at h
  · injection h with h
    injection h with _ h
    rw [← h]
  · split at h
    · exact absurd h (by simp)
    · rename_i s1 hw
      injection h with h
      injection h with _ h
      rw [← h]
      have ha1 := waitCalibration_active _ _ _ hw
      rw [calcTFine_active, setSamplingDefault_active, readCoefficients_active, ha1]

/-- The constructor sets `active` exactly when the set-up returned true. -/
theorem construct_active (fuel : Nat) (mem : Bme280Drv) (bus : I2CDevice) (altitude : Int)
    (r : Bool) (d : Bme280Drv) (h : initializeDrv fuel (deviceBase mem bus) = some (r, d)) :
    ∃ d', construct fuel mem bus altitude = some d' ∧ (d'.active = true ↔ r = true) := by
  have ha := initializeDrv_active _ _ _ _ h
  cases r with
  | true =>
    refine ⟨{ d with active := true, stationAltitude := altitude }, ?_, ?_⟩
    · unfold construct
      rw [h]
    · exact ⟨fun _ => rfl, fun _ => rfl⟩
  | false =>
    refine ⟨d, ?_, ?_⟩
    · unfold construct
      rw [h]
    · rw [ha]
      exact ⟨fun h' => absurd h' (by simp [deviceBase]), fun h' => absurd h' (by simp)⟩

theorem calcTFine_calib (s : Bme280Drv) : (calcTFine s).bme280_calib = s.bme280_calib := rfl

theorem setSamplingDefault_calib (s : Bme280Drv) :
    (setSamplingDefault s).bme280_calib = s.bme280_calib := rfl

/-- The parsed calibration depends only on the register map. -/
theorem readCoefficients_calib_congr (s s' : Bme280Drv) (h : s.bus.regs = s'.bus.regs) :
    (readCoefficients s).bme280_calib = (readCoefficients s').bme280_calib := by
  rw [readCoefficients_calib, readCoefficients_calib]
  simp only [pairLE, reg, h]

/-- The calibration a successful set-up leaves is the one parsed from the register map. -/
theorem afterSetup_calib (k : Nat) (s : Bme280Drv) :
    (afterSetup k s).bme280_calib = (readCoefficients s).bme280_calib := by
  unfold afterSetup
  rw [calcTFine_calib, setSamplingDefault_calib]
  exact readCoefficients_calib_congr _ _ rfl

/-- The `t_fine` computed after the calibration read and the configuration
depends only on the register map. -/
theorem setup_t_fine (s x : Bme280Drv) (hx : x.bus.regs = s.bus.regs) :
    (calcTFine (setSamplingDefault (readCoefficients x))).t_fine =
      compensateT (rawTemp s) (readCoefficients s).bme280_calib := by
  have hr : rawTemp (setSamplingDefault (readCoefficients x)) = rawTemp s := by
    simp only [rawTemp, setSamplingDefault_bus, readCoefficients_bus, hx]
  rw [calcTFine_t_fine, setSamplingDefault_calib, hr, readCoefficients_calib_congr x s hx]

/-- The `t_fine` a successful set-up leaves is computed from the calibration just read. -/
theorem afterSetup_t_fine (k : Nat) (s : Bme280Drv) :
    (afterSetup k s).t_fine = compensateT (rawTemp s) (readCoefficients s).bme280_calib :=
  setup_t_fine s _ rfl

/-- C18: if the chip-identity register reads 0x60 and status bit 0 is set on
the first `k` polls and clear on the next, the set-up (given fuel for `k + 1`
polls) returns true after exactly `k + 1` status reads; the operations it
issues are the identity read, the soft reset (0xE0 ← 0xB6), the `k + 1` status
reads, the calibration reads, the three configuration writes and the
temperature read for `t_fine`, in this order, so its register writes are the
soft reset followed by the three configuration writes; the constructor then
sets `active`, and in every case `active` is true after the constructor
exactly when the set-up returned true. -/
theorem setup_success (fuel k : Nat) (mem : Bme280Drv) (bus : I2CDevice) (altitude : Int)
    (hid : toU8 (bus.regs BME280_REGISTER_CHIPID) = 0x60)
    (hbusy : ∀ i, i < k → toU8 (bus.status (bus.polls + i)) % 2 = 1)
    (hclear : toU8 (bus.status (bus.polls + k)) % 2 = 0) (hfuel : k < fuel) :
    ∃ s', initializeDrv fuel (deviceBase mem bus) = some (true, s') ∧
      s'.bus.polls = bus.polls + (k + 1) ∧
      s'.bus.trace = bus.trace ++
        ([BusOp.readRegister 0xD0, BusOp.writeRegister 0xE0 0xB6] ++
          List.replicate (k + 1) (BusOp.readRegister 0xF3) ++ coeffReads ++
          [BusOp.writeRegister 0xF2 0x05, BusOp.writeRegister 0xF5 0x00,
            BusOp.writeRegister 0xF4 0xAB] ++
          [BusOp.readRegisters 3 0xFA]) ∧
      writesOf s'.bus.trace = writesOf bus.trace ++
        [BusOp.writeRegister 0xE0 0xB6, BusOp.writeRegister 0xF2 0x05,
          BusOp.writeRegister 0xF5 0x00, BusOp.writeRegister 0xF4 0xAB] ∧
      s'.bme280_calib = (readCoefficients (deviceBase mem bus)).bme280_calib ∧
      s'.t_fine = compensateT (rawTemp (deviceBase mem bus)) s'.bme280_calib ∧
      construct fuel mem bus altitude =
        some { s' with active := true, stationAltitude := altitude } ∧
      (∀ (fuel' : Nat) (r : Bool) (d : Bme280Drv),
        initializeDrv fuel' (deviceBase mem bus) = some (r, d) →
        ∃ d', construct fuel' mem bus altitude = some d' ∧ (d'.active = true ↔ r = true)) := by
  have hi := initializeDrv_success fuel k (deviceBase mem bus) hid hbusy hclear hfuel
  have hb := afterSetup_bus k (deviceBase mem bus)
  refine ⟨afterSetup k (deviceBase mem bus), hi, ?_, ?_, ?_, afterSetup_calib k _, ?_, ?_, ?_⟩
  · rw [hb]; rfl
  · rw [hb]; rfl
  · rw [hb]
    show writesOf (bus.trace ++ setupTrace k defaultWrites) = _
    rw [writesOf_append, writesOf_setupTrace]
    rfl
  · rw [afterSetup_t_fine, afterSetup_calib]
  · unfold construct
    rw [hi]
  · intro fuel' r d h
    exact construct_active fuel' mem bus altitude r d h

/-- Witness for C18: the reference chip with status bit 0 set on the first two polls. -/
theorem setup_success_witness :
    ∃ s', initializeDrv 3 (deviceBase (chipDevice (busyFor 2)) (freshBus chipRegs (busyFor 2))) =
        some (true, s') ∧
      s'.bus.polls = 3 ∧
      writesOf s'.bus.trace =
        [BusOp.writeRegister 0xE0 0xB6, BusOp.writeRegister 0xF2 0x05,
          BusOp.writeRegister 0xF5 0x00, BusOp.writeRegister 0xF4 0xAB] := by
  obtain ⟨s', h1, h2, _, h4, _⟩ :=
    setup_success 3 2 (chipDevice (busyFor 2)) (freshBus chipRegs (busyFor 2)) 0
      (by decide) (by decide) (by decide) (by decide)
  exact ⟨s', h1, h2, h4⟩

/-- The three read functions on an active device do not see the old `t_fine`. -/
theorem readValue_stale_t_fine {K : Type} [LinearOrderedField K] (pow : K → K → K)
    (s : Bme280Drv) (t : Int) (ha : s.active = true) :
    readValue0 pow { s with t_fine := t } = readValue0 pow s ∧
    (readValue1 { s with t_fine := t } : Reading K × Bme280Drv) = readValue1 s ∧
    (readValue2 { s with t_fine := t } : Reading K × Bme280Drv) = readValue2 s := by
  have ha' : ({ s with t_fine := t } : Bme280Drv).active = true := ha
  refine ⟨?_, ?_, ?_⟩
  · rw [readValue0_active pow _ ha', readValue0_active pow _ ha]
    rfl
  · rw [readValue1_active _ ha', readValue1_active _ ha]
    rfl
  · rw [readValue2_active _ ha', readValue2_active _ ha]
    rfl

/-- On an active device the reading and the final `t_fine` of the three read
functions are determined by the register map, the calibration and the altitude. -/
theorem readValue_congr {K : Type} [LinearOrderedField K] (pow : K → K → K)
    (s s2 : Bme280Drv) (ha : s.active = true) (ha2 : s2.active = true)
    (hr : s2.bus.regs = s.bus.regs) (hc : s2.bme280_calib = s.bme280_calib)
    (hal : s2.stationAltitude = s.stationAltitude) :
    ((readValue0 pow s2).1 = (readValue0 pow s).1 ∧
      (readValue0 pow s2).2.t_fine = (readValue0 pow s).2.t_fine) ∧
    (((readValue1 s2 : Reading K × Bme280Drv)).1 = (readValue1 s : Reading K × Bme280Drv).1 ∧
      ((readValue1 s2 : Reading K × Bme280Drv)).2.t_fine =
        (readValue1 s : Reading K × Bme280Drv).2.t_fine) ∧
    (((readValue2 s2 : Reading K × Bme280Drv)).1 = (readValue2 s : Reading K × Bme280Drv).1 ∧
      ((readValue2 s2 : Reading K × Bme280Drv)).2.t_fine =
        (readValue2 s : Reading K × Bme280Drv).2.t_fine) := by
  have ht : (calcTFine s2).t_fine = (calcTFine s).t_fine := calcTFine_congr s2 s hr hc
  have h0 : (afterReadValue0 s2).t_fine = (afterReadValue0 s).t_fine := ht
  have h2 : (afterReadValue2 s2).t_fine = (afterReadValue2 s).t_fine := ht
  have hp : rawPressure24 s2 = rawPressure24 s := by simp only [rawPressure24, hr]
  have hh : rawHumidity16 s2 = rawHumidity16 s := by simp only [rawHumidity16, hr]
  have hq : stationPressureQ24_8 s2 = stationPressureQ24_8 s := by
    simp only [stationPressureQ24_8, hp, ht, hc]
  have hadj : adjustedPressure pow s2 = adjustedPressure pow s := by
    simp only [adjustedPressure, hq, hal]
  refine ⟨⟨?_, ?_⟩, ⟨?_, ?_⟩, ⟨?_, ?_⟩⟩
  · rw [readValue0_active pow _ ha2, readValue0_active pow _ ha]
    simp only [hp, ht, hc, hadj]
  · rw [readValue0_active pow _ ha2, readValue0_active pow _ ha]
    exact h0
  · rw [readValue1_active _ ha2, readValue1_active _ ha]
    simp only [ht]
  · rw [readValue1_active _ ha2, readValue1_active _ ha]
    exact ht
  · rw [readValue2_active _ ha2, readValue2_active _ ha]
    simp only [hh, ht, hc]
  · rw [readValue2_active _ ha2, readValue2_active _ ha]
    exact h2

/-- The `t_fine` the three read functions leave on an active device. -/
theorem readValue_final_t_fine {K : Type} [LinearOrderedField K] (pow : K → K → K)
    (s : Bme280Drv) (ha : s.active = true) :
    (readValue0 pow s).2.t_fine = compensateT (rawTemp s) s.bme280_calib ∧
    (readValue1 s : Reading K × Bme280Drv).2.t_fine = compensateT (rawTemp s) s.bme280_calib ∧
    (readValue2 s : Reading K × Bme280Drv).2.t_fine =
      compensateT (rawTemp s) s.bme280_calib := by
  refine ⟨?_, ?_, ?_⟩
  · rw [readValue0_active pow _ ha]
    exact calcTFine_t_fine s
  · rw [readValue1_active _ ha]
    exact calcTFine_t_fine s
  · rw [readValue2_active _ ha]
    exact calcTFine_t_fine s

/-- C19: on an active device the result of `getValueAtIndex(i)`, i in
{0, 1, 2}, and the `t_fine` left by the call do not depend on the `t_fine`
held before the call: a state that differs only in `t_fine` gives the same
result and the same final state; more generally the reading and the final
`t_fine` are the same for any two active states with the same register map,
calibration and station altitude; and the final `t_fine` is the compensation
of the raw temperature bytes currently at 0xFA..0xFC, on every path
(disabled channel and out-of-range included). -/
theorem reading_ignores_stale_t_fine {K : Type} [LinearOrderedField K] (pow : K → K → K)
    (s : Bme280Drv) (t : Int) (ha : s.active = true) :
    (∀ i : Int, (i = 0 ∨ i = 1 ∨ i = 2) →
      getValueAtIndex pow { s with t_fine := t } i = getValueAtIndex pow s i) ∧
    (∀ i : Int, (i = 0 ∨ i = 1 ∨ i = 2) →
      ∃ r s', getValueAtIndex pow s i = some (r, s') ∧
        s'.t_fine = compensateT (rawTemp s) s.bme280_calib) ∧
    (∀ s2 : Bme280Drv, s2.active = true → s2.bus.regs = s.bus.regs →
      s2.bme280_calib = s.bme280_calib → s2.stationAltitude = s.stationAltitude →
      ∀ i : Int, (i = 0 ∨ i = 1 ∨ i = 2) →
        (getValueAtIndex pow s2 i).map (fun r => (r.1, r.2.t_fine)) =
          (getValueAtIndex pow s i).map (fun r => (r.1, r.2.t_fine))) := by
  have ha' : ({ s with t_fine := t } : Bme280Drv).active = true := ha
  have hg := getValueAtIndex_active pow s ha
  have hg' := getValueAtIndex_active pow { s with t_fine := t } ha'
  have hs := readValue_stale_t_fine pow s t ha
  have hf := readValue_final_t_fine pow s ha
  refine ⟨?_, ?_, ?_⟩
  · rintro i (rfl | rfl | rfl)
    · rw [hg.1, hg'.1, hs.1]
    · rw [hg.2.1, hg'.2.1, hs.2.1]
    · rw [hg.2.2, hg'.2.2, hs.2.2]
  · rintro i (rfl | rfl | rfl)
    · exact ⟨_, _, hg.1, hf.1⟩
    · exact ⟨_, _, hg.2.1, hf.2.1⟩
    · exact ⟨_, _, hg.2.2, hf.2.2⟩
  · intro s2 ha2 hr hc hal i hi
    have hg2 := getValueAtIndex_active pow s2 ha2
    have hcg := readValue_congr pow s s2 ha ha2 hr hc hal
    rcases hi with rfl | rfl | rfl
    · rw [hg.1, hg2.1]
      simp only [Option.map_some', hcg.1.1, hcg.1.2]
    · rw [hg.2.1, hg2.2.1]
      simp only [Option.map_some', hcg.2.1.1, hcg.2.1.2]
    · rw [hg.2.2, hg2.2.2]
      simp only [Option.map_some', hcg.2.2.1, hcg.2.2.2]

/-- Witness for C19: the reference device with a stale `t_fine` of 999999. -/
theorem reading_ignores_stale_t_fine_witness :
    getValueAtIndex powQ { refDevice refRegs 0 with t_fine := 999999 } 1 =
      getValueAtIndex powQ (refDevice refRegs 0) 1 :=
  (reading_ignores_stale_t_fine powQ (refDevice refRegs 0) 999999 rfl).1 1 (Or.inr (Or.inl rfl))

/-- What a state keeps of another: calibration, sampling configuration,
altitude, `active`, the register map, the status stream, the poll count and
the register writes issued so far. -/
theorem frame_refl (s : Bme280Drv) :
    s.bme280_calib = s.bme280_calib ∧ s.configReg = s.configReg ∧ s.measReg = s.measReg ∧
    s.humReg = s.humReg ∧ s.stationAltitude = s.stationAltitude ∧ s.active = s.active ∧
    writesOf s.bus.trace = writesOf s.bus.trace ∧ s.bus.regs = s.bus.regs ∧
    s.bus.status = s.bus.status ∧ s.bus.polls = s.bus.polls :=
  ⟨rfl, rfl, rfl, rfl, rfl, rfl, rfl, rfl, rfl, rfl⟩

/-- The states the three read functions leave on an active device keep
everything but `t_fine` and the reads recorded in the trace. -/
theorem readValue_frame (s : Bme280Drv) :
    (∀ s', (s' = afterReadValue0 s ∨ s' = calcTFine s ∨ s' = afterReadValue2 s) →
      s'.bme280_calib = s.bme280_calib ∧ s'.configReg = s.configReg ∧
      s'.measReg = s.measReg ∧ s'.humReg = s.humReg ∧
      s'.stationAltitude = s.stationAltitude ∧ s'.active = s.active ∧
      writesOf s'.bus.trace = writesOf s.bus.trace ∧ s'.bus.regs = s.bus.regs ∧
      s'.bus.status = s.bus.status ∧ s'.bus.polls = s.bus.polls) := by
  rintro s' (h | h | h) <;> subst h
  · refine ⟨rfl, rfl, rfl, rfl, rfl, rfl, ?_, rfl, rfl, rfl⟩
    show writesOf (s.bus.trace ++ _) = _
    rw [writesOf_append]
    simp [writesOf]
  · refine ⟨rfl, rfl, rfl, rfl, rfl, rfl, ?_, rfl, rfl, rfl⟩
    show writesOf (s.bus.trace ++ _) = _
    rw [writesOf_append]
    simp [writesOf]
  · refine ⟨rfl, rfl, rfl, rfl, rfl, rfl, ?_, rfl, rfl, rfl⟩
    show writesOf (s.bus.trace ++ _) = _
    rw [writesOf_append]
    simp [writesOf]

/-- C20 (the failing case, and what holds elsewhere): on an active device a
negative index gives `getValueAtIndex` no defined result, so nothing is
guaranteed about the state it leaves; for every other index, and for every
index on an inactive device, the request returns, leaves the calibration, the
stored sampling configuration, the station altitude and the `active` flag
unchanged and issues no register write. -/
theorem getValueAtIndex_frame {K : Type} [LinearOrderedField K] (pow : K → K → K)
    (s : Bme280Drv) (index : Int) :
    (s.active = true → index < 0 → getValueAtIndex pow s index = none) ∧
    ((s.active = false ∨ 0 ≤ index) →
      ∃ r s', getValueAtIndex pow s index = some (r, s') ∧
        s'.bme280_calib = s.bme280_calib ∧ s'.configReg = s.configReg ∧
        s'.measReg = s.measReg ∧ s'.humReg = s.humReg ∧
        s'.stationAltitude = s.stationAltitude ∧ s'.active = s.active ∧
        writesOf s'.bus.trace = writesOf s.bus.trace ∧ s'.bus.regs = s.bus.regs ∧
        s'.bus.status = s.bus.status ∧ s'.bus.polls = s.bus.polls) := by
  refine ⟨?_, ?_⟩
  · intro ha hi
    have h1 : index < ((numValues : Nat) : Int) := by
      simp only [numValues, NUM_VALUES]; omega
    have h2 : ¬ 0 ≤ index := by omega
    simp [getValueAtIndex, ha, h1, h2]
  · intro h
    by_cases ha : s.active = true
    · have hi : 0 ≤ index := by
        rcases h with h | h
        · rw [ha] at h; exact absurd h (by simp)
        · exact h
      by_cases h3 : 3 ≤ index
      · exact ⟨_, _, getValueAtIndex_ge pow s index h3, frame_refl s⟩
      · have hg := getValueAtIndex_active pow s ha
        have hf := readValue_frame s
        have hcases : index = 0 ∨ index = 1 ∨ index = 2 := by omega
        rcases hcases with rfl | rfl | rfl
        · have e : (readValue0 pow s).2 = afterReadValue0 s := by
            rw [readValue0_active pow s ha]
          exact ⟨(readValue0 pow s).1, (readValue0 pow s).2, hg.1, hf _ (Or.inl e)⟩
        · have e : (readValue1 s : Reading K × Bme280Drv).2 = calcTFine s := by
            rw [readValue1_active s ha]
          exact ⟨(readValue1 s).1, (readValue1 s).2, hg.2.1, hf _ (Or.inr (Or.inl e))⟩
        · have e : (readValue2 s : Reading K × Bme280Drv).2 = afterReadValue2 s := by
            rw [readValue2_active s ha]
          exact ⟨(readValue2 s).1, (readValue2 s).2, hg.2.2, hf _ (Or.inr (Or.inr e))⟩
    · have ha' : s.active = false := by simpa using ha
      exact ⟨_, _, getValueAtIndex_inactive pow s index ha', frame_refl s⟩

/-- Witness for C20: index −3 and index 2 on the active reference device. -/
theorem getValueAtIndex_frame_witness :
    getValueAtIndex powQ (refDevice refRegs 0) (-3) = none ∧
    ∃ r s', getValueAtIndex powQ (refDevice refRegs 0) 2 = some (r, s') ∧
      s'.bme280_calib = refCalib ∧ writesOf s'.bus.trace = [] := by
  refine ⟨(getValueAtIndex_frame powQ (refDevice refRegs 0) (-3)).1 rfl (by decide), ?_⟩
  obtain ⟨r, s', h, hc, _, _, _, _, _, hw, _⟩ :=
    (getValueAtIndex_frame powQ (refDevice refRegs 0) 2).2 (Or.inr (by decide))
  exact ⟨r, s', h, hc, hw⟩

/-- The height formula followed by its inverse, over the reals. -/
theorem seaLevelForAltitude_pressureToAltitude (P0 P T : ℝ) (h0 : 0 < P0) (hP : 0 < P)
    (hT : -(27315 / 100) < T) :
    seaLevelForAltitude Real.rpow (pressureToAltitude Real.rpow P0 P T) P T = P0 := by
  have hx : 0 < P0 / P := div_pos h0 hP
  have hT' : T + 27315 / 100 ≠ 0 := by linarith
  have ha : (190223 / 1000000 : ℝ) * (1 / (190223 / 1000000)) = 1 := by norm_num
  have hgen : ∀ y u : ℝ, u ≠ 0 →
      ((y - 1) * u) / (65 / 10000) * (65 / 10000) / u + 1 = y := by
    intro y u hu
    have h65 : (65 / 10000 : ℝ) ≠ 0 := by norm_num
    rw [div_mul_cancel₀ _ h65, mul_div_assoc, div_self hu]
    ring
  have hin : ((Real.rpow (P0 / P) (190223 / 1000000) - 1) * (T + 27315 / 100)) / (65 / 10000) *
      (65 / 10000) / (T + 27315 / 100) + 1 = Real.rpow (P0 / P) (190223 / 1000000) :=
    hgen _ _ hT'
  unfold seaLevelForAltitude pressureToAltitude
  rw [hin]
  show ((P0 / P) ^ (190223 / 1000000 : ℝ)) ^ (1 / (190223 / 1000000) : ℝ) * P = P0
  rw [← Real.rpow_mul hx.le, ha, Real.rpow_one]
  field_simp

/-- C21: with the float formulas read over the reals and `pow` the real power
function, for every `P0 > 0`, `P > 0` and `T > −273.15` (in particular
`P0` in [950, 1050], `P` in [900, 1050], `T` in [−10, 40]),
`seaLevelForAltitude(pressureToAltitude(P0, P, T), P, T) = P0`. -/
theorem sea_level_inverse (P0 P T : ℝ) (h0 : 0 < P0) (hP : 0 < P)
    (hT : -(27315 / 100) < T) :
    seaLevelForAltitude Real.rpow (pressureToAltitude Real.rpow P0 P T) P T = P0 ∧
    ((950 ≤ P0 ∧ P0 ≤ 1050) → (900 ≤ P ∧ P ≤ 1050) → (-10 ≤ T ∧ T ≤ 40) →
      seaLevelForAltitude Real.rpow (pressureToAltitude Real.rpow P0 P T) P T = P0) :=
  ⟨seaLevelForAltitude_pressureToAltitude P0 P T h0 hP hT,
    fun _ _ _ => seaLevelForAltitude_pressureToAltitude P0 P T h0 hP hT⟩

/-- Witness for C21: sea level 1013.25 hPa, station 1000 hPa, 15 degrees. -/
theorem sea_level_inverse_witness :
    seaLevelForAltitude Real.rpow
      (pressureToAltitude Real.rpow (101325 / 100) 1000 15) 1000 15 = 101325 / 100 :=
  (sea_level_inverse (101325 / 100) 1000 15 (by norm_num) (by norm_num) (by norm_num)).1

/-- C22: on an active device `getValueAtIndex` sends index 0 to `readValue0`
(pressure), index 1 to `readValue1` (temperature) and index 2 to `readValue2`
(humidity): the table of read functions lists them in the order of the value
names "pressure", "temperature", "humidity", and the number of value names is
`NUM_VALUES = 3`. -/
theorem dispatch_order {K : Type} [LinearOrderedField K] (pow : K → K → K)
    (s : Bme280Drv) (ha : s.active = true) :
    getValueAtIndex pow s 0 = some (readValue0 pow s) ∧
    getValueAtIndex pow s 1 = some (readValue1 s) ∧
    getValueAtIndex pow s 2 = some (readValue2 s) ∧
    readFunction pow = [readValue0 pow, readValue1, readValue2] ∧
    valueNames = ["pressure", "temperature", "humidity"] ∧
    valueNames[0]? = some "pressure" ∧ valueNames[1]? = some "temperature" ∧
    valueNames[2]? = some "humidity" ∧
    valueNames.length = NUM_VALUES ∧ (readFunction pow).length = NUM_VALUES ∧
    numValues = NUM_VALUES ∧ NUM_VALUES = 3 := by
  have h := getValueAtIndex_active pow s ha
  exact ⟨h.1, h.2.1, h.2.2, rfl, rfl, rfl, rfl, rfl, rfl, rfl, rfl, rfl⟩

/-- Witness for C22: the active reference device. -/
theorem dispatch_order_witness :
    getValueAtIndex powQ (refDevice refRegs 0) 1 = some (readValue1 (refDevice refRegs 0)) :=
  (dispatch_order powQ (refDevice refRegs 0) rfl).2.1

/-- The ctrl_meas fields `setSampling` stores. -/
theorem setSampling_measReg (s : Bme280Drv) (m : sensor_mode) (t p hs : sensor_sampling)
    (f : sensor_filter) (d : standby_duration) :
    (setSampling s m t p hs f d).measReg =
      { osrs_t := t.code % 8, osrs_p := p.code % 8, mode := m.code % 4 } := rfl

/-- C23 (the failing case): `ctrl_meas::get` places the pressure oversampling
code at bits 5..3, not 4..2, where it overlaps the temperature code. With
temperature oversampling off, pressure 16x and normal mode the byte is 0x2B:
bits 7..5 read 001 (temperature 1x) and bits 4..2 read 010 (pressure 2x); and
(temperature 1x, pressure off) gives the same byte as (temperature off,
pressure 8x), so the fields cannot be read back. Only the mode field is at its
place. The default call of `setSampling` (16x, 16x, normal mode) already shows
it: the byte is 0xAB, whose bits 4..2 read 010 (pressure 2x), not 101. -/
theorem ctrl_meas_layout_overlap (s : Bme280Drv) (hs : sensor_sampling) (f : sensor_filter)
    (d : standby_duration) :
    (setSampling s sensor_mode.MODE_NORMAL sensor_sampling.SAMPLING_NONE
      sensor_sampling.SAMPLING_X16 hs f d).measReg.get = 0x2B ∧
    bitField 0x2B 5 3 = sensor_sampling.SAMPLING_X1.code ∧
    bitField 0x2B 5 3 ≠ sensor_sampling.SAMPLING_NONE.code ∧
    bitField 0x2B 2 3 = sensor_sampling.SAMPLING_X2.code ∧
    bitField 0x2B 2 3 ≠ sensor_sampling.SAMPLING_X16.code ∧
    bitField 0x2B 0 2 = sensor_mode.MODE_NORMAL.code ∧
    (setSampling s sensor_mode.MODE_NORMAL sensor_sampling.SAMPLING_X1
      sensor_sampling.SAMPLING_NONE hs f d).measReg.get =
    (setSampling s sensor_mode.MODE_NORMAL sensor_sampling.SAMPLING_NONE
      sensor_sampling.SAMPLING_X8 hs f d).measReg.get ∧
    (∀ (m : sensor_mode) (t p : sensor_sampling),
      bitField (setSampling s m t p hs f d).measReg.get 0 2 = m.code) ∧
    (setSamplingDefault s).measReg.get = 0xAB ∧
    bitField (setSamplingDefault s).measReg.get 2 3 = sensor_sampling.SAMPLING_X2.code ∧
    bitField (setSamplingDefault s).measReg.get 2 3 ≠ sensor_sampling.SAMPLING_X16.code := by
  have hd : (setSamplingDefault s).measReg =
      { osrs_t := sensor_sampling.SAMPLING_X16.code, osrs_p := sensor_sampling.SAMPLING_X16.code,
        mode := sensor_mode.MODE_NORMAL.code } := rfl
  rw [hd]
  simp only [setSampling_measReg]
  refine ⟨by decide, by decide, by decide, by decide, by decide, by decide, by decide, ?_,
    by decide, by decide, by decide⟩
  intro m t p
  cases m <;> cases t <;> cases p <;> decide

/-- C25 (the failing case): `float p_adj = p/256` divides two integers, so the
fractional bits of the Q24.8 value are dropped before the division by 100: for
the reference vector `p = 25767233` and the value handed to the sea-level
adjustment is 100653/100 hPa, not 25767233/25600; for `p = 24674867` the
expression gives 96386 Pa, that is 963.86 hPa, not the 96386.2 Pa = 963.862 hPa
of the comment. -/
theorem station_pressure_truncated {K : Type} [LinearOrderedField K] (pow : K → K → K)
    (altitude : Int) :
    stationPressureQ24_8 (refDevice refRegs altitude) = 25767233 ∧
    adjustedPressure pow (refDevice refRegs altitude) =
      seaLevelPressure pow altitude ((100653 : K) / 100) ∧
    (readValue0 pow (refDevice refRegs altitude)).1 =
      (if seaLevelPressure pow altitude ((100653 : K) / 100) < 850 ∨
          seaLevelPressure pow altitude ((100653 : K) / 100) > 1090
        then Reading.literal "none"
        else Reading.formatted (seaLevelPressure pow altitude ((100653 : K) / 100)) 2) ∧
    ((100653 : ℚ) / 100 ≠ 25767233 / 25600) ∧
    Int.tdiv 24674867 256 = 96386 ∧
    (((Int.tdiv 24674867 256 : Int) : ℚ) / 100 = 96386 / 100) ∧
    (((Int.tdiv 24674867 256 : Int) : ℚ) / 100 ≠ 24674867 / 25600) ∧
    ((24674867 : ℚ) / 25600 - 96386 / 100 = 51 / 25600) := by
  refine ⟨refDevice_station_pressure altitude, refDevice_adjusted pow altitude,
    refDevice_readValue0 pow altitude, by norm_num, by decide, ?_, ?_, by norm_num⟩
  · rw [show Int.tdiv 24674867 256 = 96386 by decide]; norm_num
  · rw [show Int.tdiv 24674867 256 = 96386 by decide]; norm_num


/-- A product of two bounded integers fits `int32_t` when the product of the bounds does. -/
theorem fits32_mul (a b A B : Int) (ha : |a| ≤ A) (hb : |b| ≤ B) (h : A * B ≤ 2147483647) :
    fits32 (a * b) := by
  have hA : 0 ≤ A := le_trans (abs_nonneg a) ha
  have h1 : |a * b| ≤ A * B := by
    rw [abs_mul]
    exact mul_le_mul ha hb (abs_nonneg b) hA
  have h2 := abs_le.mp (le_trans h1 h)
  exact ⟨by linarith [h2.1], h2.2⟩

/-- The raw temperature code is a 20-bit value. -/
theorem rawTemp_range (s : Bme280Drv) : 0 ≤ rawTemp s ∧ rawTemp s ≤ 1048575 := by
  have h0 := toU8_lt (s.bus.regs 0xFA)
  have h1 := toU8_lt (s.bus.regs 0xFB)
  have h2 := toU8_lt (s.bus.regs 0xFC)
  simp only [rawTemp, rawCode20]
  omega

/-- No intermediate result overflows for a 20-bit code and a calibration with
`dig_T1` in [26000, 32767], `dig_T2` in [−27000, 27000], `dig_T3` in [−5000, 5000]. -/
theorem calcTFineFits_of_box (adc_T T1 T2 T3 : Int) (ha : 0 ≤ adc_T ∧ adc_T ≤ 1048575)
    (h1 : 26000 ≤ T1 ∧ T1 ≤ 32767) (h2 : -27000 ≤ T2 ∧ T2 ≤ 27000)
    (h3 : -5000 ≤ T3 ∧ T3 ≤ 5000) : calcTFineFits adc_T T1 T2 T3 := by
  have hx1 : |adc_T / 8 - T1 * 2| ≤ 79071 := by rw [abs_le]; constructor <;> omega
  have hx2 : |adc_T / 16 - T1| ≤ 39535 := by rw [abs_le]; constructor <;> omega
  have hT2 : |T2| ≤ 27000 := by rw [abs_le]; constructor <;> omega
  have hT3 : |T3| ≤ 5000 := by rw [abs_le]; constructor <;> omega
  have f3 : fits32 ((adc_T / 8 - T1 * 2) * T2) := fits32_mul _ _ _ _ hx1 hT2 (by norm_num)
  have hsq : |(adc_T / 16 - T1) * (adc_T / 16 - T1)| ≤ 39535 * 39535 := by
    rw [abs_mul]
    exact mul_le_mul hx2 hx2 (abs_nonneg _) (by norm_num)
  have f5 : fits32 ((adc_T / 16 - T1) * (adc_T / 16 - T1)) :=
    fits32_mul _ _ _ _ hx2 hx2 (by norm_num)
  have hq : |(adc_T / 16 - T1) * (adc_T / 16 - T1) / 4096| ≤ 381595 := by
    have hb := abs_le.mp hsq
    have hnn := mul_self_nonneg (adc_T / 16 - T1)
    rw [abs_le]; constructor <;> omega
  have f6 : fits32 ((adc_T / 16 - T1) * (adc_T / 16 - T1) / 4096 * T3) :=
    fits32_mul _ _ _ _ hq hT3 (by norm_num)
  refine ⟨?_, ?_, f3, ?_, f5, f6, ?_⟩
  · unfold fits32; omega
  · unfold fits32; omega
  · unfold fits32; omega
  · unfold tFineFormula
    unfold fits32 at f3 f6 ⊢
    omega


/-- C26 (as stated, refuted): with the 20-bit raw code 0 and the calibration
`dig_T1 = 65535`, `dig_T2 = 0`, `dig_T3 = 1000`, each within its C type, the
square `((adc_T >> 4) − dig_T1)²` is 4294836225, beyond the signed 32-bit
range; the source stores −2 while the formula over the integers gives 63998. -/
theorem calcTFine_square_overflow_counterexample :
    (0 ≤ rawTemp squareOverflowDevice ∧ rawTemp squareOverflowDevice ≤ 1048575) ∧
    (0 ≤ squareOverflowDevice.bme280_calib.dig_T1 ∧
      squareOverflowDevice.bme280_calib.dig_T1 ≤ 65535) ∧
    (-32768 ≤ squareOverflowDevice.bme280_calib.dig_T2 ∧
      squareOverflowDevice.bme280_calib.dig_T2 ≤ 32767) ∧
    (-32768 ≤ squareOverflowDevice.bme280_calib.dig_T3 ∧
      squareOverflowDevice.bme280_calib.dig_T3 ≤ 32767) ∧
    (rawTemp squareOverflowDevice / 16 - squareOverflowDevice.bme280_calib.dig_T1) *
      (rawTemp squareOverflowDevice / 16 - squareOverflowDevice.bme280_calib.dig_T1) =
        4294836225 ∧
    ¬ calcTFineFits (rawTemp squareOverflowDevice) squareOverflowDevice.bme280_calib.dig_T1
      squareOverflowDevice.bme280_calib.dig_T2 squareOverflowDevice.bme280_calib.dig_T3 ∧
    (calcTFine squareOverflowDevice).t_fine = -2 ∧
    tFineFormula (rawTemp squareOverflowDevice) squareOverflowDevice.bme280_calib.dig_T1
      squareOverflowDevice.bme280_calib.dig_T2 squareOverflowDevice.bme280_calib.dig_T3 =
        63998 := by
  refine ⟨by decide, by decide, by decide, by decide, by decide, ?_, by decide, by decide⟩
  unfold calcTFineFits fits32
  decide

/-- C26 (amended): for every 20-bit raw temperature code and every calibration
with `dig_T1` in [26000, 32767], `dig_T2` in [−27000, 27000] and `dig_T3` in
[−5000, 5000] (the reference calibration among them), every intermediate
product and sum of `calcTFine` stays within the signed 32-bit range, so the
stored `t_fine` equals the formula evaluated over unbounded integers; for any
calibration the two agree whenever no intermediate leaves that range. -/
theorem calcTFine_no_overflow (s : Bme280Drv)
    (h1 : 26000 ≤ s.bme280_calib.dig_T1 ∧ s.bme280_calib.dig_T1 ≤ 32767)
    (h2 : -27000 ≤ s.bme280_calib.dig_T2 ∧ s.bme280_calib.dig_T2 ≤ 27000)
    (h3 : -5000 ≤ s.bme280_calib.dig_T3 ∧ s.bme280_calib.dig_T3 ≤ 5000) :
    (0 ≤ rawTemp s ∧ rawTemp s ≤ 1048575) ∧
    calcTFineFits (rawTemp s) s.bme280_calib.dig_T1 s.bme280_calib.dig_T2
      s.bme280_calib.dig_T3 ∧
    (calcTFine s).t_fine = tFineFormula (rawTemp s) s.bme280_calib.dig_T1
      s.bme280_calib.dig_T2 s.bme280_calib.dig_T3 ∧
    ((26000 : Int) ≤ refCalib.dig_T1 ∧ refCalib.dig_T1 ≤ 32767 ∧
      -27000 ≤ refCalib.dig_T2 ∧ refCalib.dig_T2 ≤ 27000 ∧
      -5000 ≤ refCalib.dig_T3 ∧ refCalib.dig_T3 ≤ 5000) ∧
    (∀ x : Bme280Drv,
      calcTFineFits (rawTemp x) x.bme280_calib.dig_T1 x.bme280_calib.dig_T2
        x.bme280_calib.dig_T3 →
      (calcTFine x).t_fine = tFineFormula (rawTemp x) x.bme280_calib.dig_T1
        x.bme280_calib.dig_T2 x.bme280_calib.dig_T3) := by
  have hf := calcTFineFits_of_box _ _ _ _ (rawTemp_range s) h1 h2 h3
  exact ⟨rawTemp_range s, hf, calcTFine_eq_formula s hf, by decide,
    fun x hx => calcTFine_eq_formula x hx⟩

/-- Witness for C26: the reference device. -/
theorem calcTFine_no_overflow_witness :
    (calcTFine (refDevice refRegs 0)).t_fine =
      tFineFormula (rawTemp (refDevice refRegs 0)) 27504 26435 (-1000) :=
  (calcTFine_no_overflow (refDevice refRegs 0) (by decide) (by decide) (by decide)).2.2.1

end Bme280
